import Mathlib

/-!
# Connection supervisor of the ESP8266 clock (`src/WiFiManager.cpp`, `src/WiFiManager.h`)

A shallow embedding of `WifiManager` and of the part of the radio it drives.

* The class members of `WifiManager` are the fields of `WifiManager`.
* The radio, the clock, the DNS responder and the log are the fields of `Device`.
  Everything the outside world decides (how long a blocking call takes, which link status the
  radio reports after it, whether the disconnect callback fired meanwhile) is an explicit
  argument of the function that blocks (`Yield`, `LibWait`).
* Every call the code makes on the radio, the DNS responder, the log and `operations` appends an
  `Event`, stamped with the time of the call, to `Device.trace` (newest first).
* Machine integers are `Nat` with explicit reduction: `millis()` is 32 bits wide,
  `reconnectLastRetry` is `uint32_t`, `captivePortalStart` is `uint64_t`, `reconnectRetries`
  is `uint8_t`, `size_t` is 32 bits wide.
* The Arduino `String` operations used by `getRFC952Hostname` (`operator[]`, `substring`,
  `trim`) are functions on lists of characters.
* A run of the supervisor is a list of `Step`s applied to a state (`exec`).
-/

namespace Esp

/-- Link states reported by `WiFi.status()`. -/
inductive wl_status_t
  | WL_IDLE_STATUS
  | WL_NO_SSID_AVAIL
  | WL_SCAN_COMPLETED
  | WL_CONNECTED
  | WL_CONNECT_FAILED
  | WL_CONNECTION_LOST
  | WL_WRONG_PASSWORD
  | WL_DISCONNECTED
  deriving DecidableEq

open wl_status_t

/-- Numeric value of a link state, as it is returned through `int8_t`. -/
def wl_status_t.code : wl_status_t → Int
  | WL_IDLE_STATUS => 0
  | WL_NO_SSID_AVAIL => 1
  | WL_SCAN_COMPLETED => 2
  | WL_CONNECTED => 3
  | WL_CONNECT_FAILED => 4
  | WL_CONNECTION_LOST => 5
  | WL_WRONG_PASSWORD => 6
  | WL_DISCONNECTED => 7

/-- Radio operating modes (`WiFi.mode`, `wifi_get_opmode`): bit 0 is the station interface. -/
def WIFI_STA : Nat := 1

/-- Access point only. -/
def WIFI_AP : Nat := 2

/-- The call sites of `LOG_INFO` and `LOG_ERROR`, named after what they report. -/
inductive LogSite
  | beginRfcName          -- begin, "RFC name is"
  | staDisconnected       -- onDisconnect, "WiFi STA disconnected with reason:"
  | forgetRequested       -- forget, "Requested to forget WiFi. Started Captive portal."
  | newUnsuccessful       -- connectNewWifi, "New connection unsuccessful"
  | reconnectionFailed    -- connectNewWifi, "Reconnection failed too"
  | reconnectionOk        -- connectNewWifi, "Reconnection successful"
  | reconnectionIp        -- connectNewWifi, "Connected to new WiFi details with IP: "
  | newSuccessful         -- connectNewWifi, "New connection successful"
  | portalOpened          -- startCaptivePortal, "Opened a captive portal with AP "
  | savedRfcName          -- connectSavedWifi, "RFC name is"
  | savedConnected        -- connectSavedWifi, "Connected to stored WiFi details with IP: "
  | retryNo               -- loop, "Disconnected from wifi, connection retry no"
  | savedFailed           -- loop, "Connection to saved wifi failed for retry no:"
  | savedSucceeded        -- loop, "Connection to saved wifi succeeded for retry no:"
  | stable                -- loop, "Wifi connection is stable now"
  deriving DecidableEq

/-- What the code does to the world outside `WifiManager`. -/
inductive Event
  | log (site : LogSite)
  | persistent (flag : Bool)                    -- WiFi.persistent
  | onStationModeDisconnected                 -- WiFi.onStationModeDisconnected (registration)
  | setAutoReconnect (flag : Bool)              -- WiFi.setAutoReconnect
  | setHostname (name : String)               -- WiFi.setHostname
  | intrDisable                               -- ETS_UART_INTR_DISABLE
  | intrEnable                                -- ETS_UART_INTR_ENABLE
  | stationDisconnect                         -- wifi_station_disconnect
  | beginStored                               -- WiFi.begin()
  | beginWith (ssid psk : String)             -- WiFi.begin(ssid, psk, 0, NULL, true)
  | disconnect (wifioff : Bool)               -- WiFi.disconnect
  | mode (m : Nat)                            -- WiFi.mode
  | softAP (name : String)                    -- WiFi.softAP
  | dnsNew                                    -- new DNSServer()
  | dnsSetErrorReplyCode                      -- dnsServer->setErrorReplyCode
  | dnsStart                                  -- dnsServer->start
  | dnsProcessNextRequest                     -- dnsServer->processNextRequest
  | dnsDelete                                 -- delete dnsServer
  | reboot                                    -- operations::instance.reboot()
  | callChangeListeners                       -- changeCallBack::callChangeListeners
  deriving DecidableEq

/-- The `DNSServer *dnsServer` member: null, pointing to a live object, or pointing to a
deleted one. -/
inductive DnsPtr
  | null
  | live
  | deleted
  deriving DecidableEq

/-- Members of `class WifiManager` (`WiFiManager.h`), with their in-class initialisers. -/
structure WifiManager where
  dnsServer : DnsPtr := DnsPtr.null
  ssid : String := ""
  pass : String := ""
  reconnect : Bool := false
  inCaptivePortal : Bool := false
  captivePortalStart : Nat := 0
  rfcName : String := ""
  reconnectRetries : Nat := 0
  reconnectLastRetry : Nat := 0
  checkConnection : Bool := false
  deriving DecidableEq

/-- The world outside `WifiManager`: the millisecond clock (true time since boot, not wrapped),
the radio (operating mode, reported link status, station configuration), since when the link
has been up without a break, and the trace of calls made so far (newest first). -/
structure Device where
  time : Nat := 0
  opmode : Nat := 0
  status : wl_status_t := WL_IDLE_STATUS
  staSSID : String := ""
  staPSK : String := ""
  upSince : Option Nat := none
  trace : List (Nat × Event) := []
  deriving DecidableEq

/-- The supervisor together with the device it runs on. -/
structure Sys where
  self : WifiManager := {}
  hw : Device := {}
  deriving DecidableEq

/-- What happens while the code yields to the system: `dt` milliseconds pass, the radio then
reports `status`, and `notify` tells whether the station-disconnected callback fired. -/
structure Yield where
  dt : Nat := 0
  status : wl_status_t := WL_DISCONNECTED
  notify : Bool := false
  deriving DecidableEq

/-- Outcome of the library call `WiFi.waitForConnectResult(timeout)`: `dt` milliseconds pass,
`result` is the status it returns (`none` when it times out and returns `-1`), and `notify`
tells whether the station-disconnected callback fired meanwhile. -/
structure LibWait where
  dt : Nat := 0
  result : Option wl_status_t := none
  notify : Bool := false
  deriving DecidableEq

/-- What the outside world does during `connectNewWifi`: during `delay(2000)`, during the wait
for the candidate, during the wait for the rollback. -/
structure SwapEnv where
  pause : Yield := {}
  first : LibWait := {}
  second : LibWait := {}
  deriving DecidableEq

/-- What the outside world does during one call of `loop`: during `connectNewWifi`, and at the
polls of `waitForConnectResult` inside `connectSavedWifi`. -/
structure LoopEnv where
  swap : SwapEnv := {}
  saved : List Yield := []
  deriving DecidableEq

/-- Width of `millis()` and of `reconnectLastRetry`: 2^32. -/
def U32 : Nat := 4294967296

/-- Width of `captivePortalStart`: 2^64. -/
def U64 : Nat := 18446744073709551616

/-- Unsigned subtraction `a - b` in a type of `m` values. -/
def subMod (m a b : Nat) : Nat := (a % m + (m - b % m)) % m

namespace Sys

/-- Append a call to the trace, stamped with the current time. -/
def emit (e : Event) (s : Sys) : Sys :=
  { s with hw := { s.hw with trace := (s.hw.time, e) :: s.hw.trace } }

/-- Time passes and the radio reports a (possibly new) link status. -/
def observe (dt : Nat) (st : wl_status_t) (s : Sys) : Sys :=
  { s with hw := { s.hw with
      time := s.hw.time + dt
      status := st
      upSince :=
        if st = WL_CONNECTED then
          (if s.hw.status = WL_CONNECTED then
            (match s.hw.upSince with
              | some u => some u
              | none => some (s.hw.time + dt))
           else some (s.hw.time + dt))
        else none } }

end Sys

/-- The clock `millis()`: 32 bits, wraps to 0. -/
def millis (s : Sys) : Nat := s.hw.time % U32

/-- Modelled from the spec: the macros `LOG_INFO` and `LOG_ERROR` (`logging.h` is not among
the sources) write one line to the process log and do nothing else; the line is identified by
its call site. -/
def LOG (site : LogSite) (s : Sys) : Sys := s.emit (Event.log site)

/-- Modelled from the spec: `operations::instance.reboot()` (`operations.h` is not among the
sources) restarts the device unconditionally, and no further state logic applies: the call
does not come back to its caller. The restart is recorded in the trace and the state is left
as it was when the call was made; that the statements after the call do not run is modelled
in the caller (`loop`). -/
def operations.reboot (s : Sys) : Sys := s.emit Event.reboot

/-- Modelled from the spec: `callChangeListeners()` of the base class `changeCallBack`
(`changeCallback.h` is not among the sources) notifies the registered listeners, here that
captive mode has ended. -/
def callChangeListeners (s : Sys) : Sys := s.emit Event.callChangeListeners

/-- SDK macro `ETS_UART_INTR_DISABLE()`. -/
def ETS_UART_INTR_DISABLE (s : Sys) : Sys := s.emit Event.intrDisable

/-- SDK macro `ETS_UART_INTR_ENABLE()`. -/
def ETS_UART_INTR_ENABLE (s : Sys) : Sys := s.emit Event.intrEnable

/-- SDK query `wifi_get_opmode()`. -/
def wifi_get_opmode (s : Sys) : Nat := s.hw.opmode

/-- SDK command `wifi_station_disconnect()`: drops the association, keeps the station
configuration. -/
def wifi_station_disconnect (s : Sys) : Sys := s.emit Event.stationDisconnect

namespace WiFi

/-- Query `WiFi.status()`. -/
def status (s : Sys) : wl_status_t := s.hw.status

/-- Query `WiFi.isConnected()`. -/
def isConnected (s : Sys) : Bool := decide (s.hw.status = WL_CONNECTED)

/-- Query `WiFi.SSID()`: the name in the station configuration. -/
def SSID (s : Sys) : String := s.hw.staSSID

/-- Query `WiFi.psk()`: the secret in the station configuration. -/
def psk (s : Sys) : String := s.hw.staPSK

/-- Command `WiFi.persistent(flag)`. -/
def persistent (flag : Bool) (s : Sys) : Sys := s.emit (Event.persistent flag)

/-- Command `WiFi.setAutoReconnect(flag)`. -/
def setAutoReconnect (flag : Bool) (s : Sys) : Sys := s.emit (Event.setAutoReconnect flag)

/-- Command `WiFi.setHostname(name)`. -/
def setHostname (name : String) (s : Sys) : Sys := s.emit (Event.setHostname name)

/-- Command `WiFi.softAP(name)`. -/
def softAP (name : String) (s : Sys) : Sys := s.emit (Event.softAP name)

/-- Command `WiFi.mode(m)`. -/
def mode (m : Nat) (s : Sys) : Sys :=
  Sys.emit (Event.mode m) { s with hw := { s.hw with opmode := m } }

/-- Command `WiFi.begin()`: starts connecting with the stored station configuration. -/
def beginStored (s : Sys) : Sys := s.emit Event.beginStored

/-- Command `WiFi.begin(ssid, psk, 0, NULL, true)`: stores the station configuration and
starts connecting. -/
def begin (ssid psk : String) (s : Sys) : Sys :=
  Sys.emit (Event.beginWith ssid psk)
    { s with hw := { s.hw with staSSID := ssid, staPSK := psk } }

/-- Command `WiFi.disconnect(wifioff)`: drops the association and clears the station
configuration in use. -/
def disconnect (wifioff : Bool) (s : Sys) : Sys :=
  Sys.emit (Event.disconnect wifioff) { s with hw := { s.hw with staSSID := "", staPSK := "" } }

end WiFi

namespace WifiManager

/-- Member `const unsigned long timeout = 60000`. -/
def timeout : Nat := 60000

/-- Local `maxConnectionRetries` of `loop`. -/
def maxConnectionRetries : Nat := 10

/-- Local `connectionRetryInterval` of `loop`: `30 * 1000`. -/
def connectionRetryInterval : Nat := 30 * 1000

/-- Source `WifiManager::onDisconnect`: logs and raises `checkConnection`. -/
def onDisconnect (s : Sys) : Sys :=
  let s := LOG LogSite.staDisconnected s
  { s with self := { s.self with checkConnection := true } }

end WifiManager

/-- The code yields (`yield()`): time passes, the radio may report a new status, and the
station-disconnected callback registered in `begin` may run. -/
def yield (y : Yield) (s : Sys) : Sys :=
  let s := s.observe y.dt y.status
  if y.notify then WifiManager.onDisconnect s else s

/-- Blocking `delay(ms)`: a yield that lasts at least `ms` milliseconds. -/
def delay (ms : Nat) (y : Yield) (s : Sys) : Sys :=
  yield { y with dt := ms + y.dt } s

/-- Library call `WiFi.waitForConnectResult(timeout)` (not part of this repository): blocks,
then returns the status it last read, or `-1` on timeout, in which case the status is still
`WL_DISCONNECTED`. -/
def WiFi.waitForConnectResult (o : LibWait) (s : Sys) : Int × Sys :=
  let s := s.observe o.dt (match o.result with
    | some r => r
    | none => WL_DISCONNECTED)
  let s := if o.notify then WifiManager.onDisconnect s else s
  ((match o.result with
    | some r => r.code
    | none => -1), s)

namespace WifiManager

/-- The polling loop of `waitForConnectResult`, with the one-shot timer started at time
`start`. Each element of the list is one `yield()` of the loop body; when the list is used up
nothing changes any more until the timer expires. -/
def waitLoop (timeoutLength start : Nat) : List Yield → Sys → Int × Sys
  | [], s =>
      if timeoutLength ≤ s.hw.time - start then (-1, s)
      else if WiFi.status s ≠ WL_DISCONNECTED ∧ WiFi.status s ≠ WL_NO_SSID_AVAIL then
        ((WiFi.status s).code, s)
      else (-1, s.observe (start + timeoutLength - s.hw.time) (WiFi.status s))
  | y :: ys, s =>
      if timeoutLength ≤ s.hw.time - start then (-1, s)
      else
        let s1 := yield y s
        if WiFi.status s1 ≠ WL_DISCONNECTED ∧ WiFi.status s1 ≠ WL_NO_SSID_AVAIL then
          ((WiFi.status s1).code, s1)
        else waitLoop timeoutLength start ys s1

/-- Source `WifiManager::waitForConnectResult`. -/
def waitForConnectResult (timeoutLength : Nat) (polls : List Yield) (s : Sys) : Int × Sys :=
  if wifi_get_opmode s % 2 = 0 then (WL_DISCONNECTED.code, s)
  else waitLoop timeoutLength s.hw.time polls s

/-- Source `WifiManager::disconnect`. -/
def disconnect (disconnectWifi : Bool) (s : Sys) : Sys :=
  WiFi.disconnect disconnectWifi s

/-- Source `WifiManager::setNewWifi`. -/
def setNewWifi (newSSID newPass : String) (s : Sys) : Sys :=
  { s with self := { s.self with ssid := newSSID, pass := newPass, reconnect := true } }

/-- Source `WifiManager::startCaptivePortal`. -/
def startCaptivePortal (s : Sys) : Sys :=
  let s := LOG LogSite.portalOpened s
  let s := WiFi.persistent false s
  let s := WiFi.disconnect false s
  let s := WiFi.mode WIFI_AP s
  let s := WiFi.persistent true s
  let s := WiFi.softAP s.self.rfcName s
  let s := s.emit Event.dnsNew
  let s := { s with self := { s.self with dnsServer := DnsPtr.live } }
  let s := s.emit Event.dnsSetErrorReplyCode
  let s := s.emit Event.dnsStart
  let s := { s with self := { s.self with captivePortalStart := millis s } }
  { s with self := { s.self with inCaptivePortal := true } }

/-- Source `WifiManager::stopCaptivePortal`. -/
def stopCaptivePortal (s : Sys) : Sys :=
  let s := WiFi.mode WIFI_STA s
  let s := s.emit Event.dnsDelete
  let s := { s with self := { s.self with
    dnsServer := match s.self.dnsServer with
      | DnsPtr.null => DnsPtr.null
      | _ => DnsPtr.deleted } }
  let s := { s with self := { s.self with inCaptivePortal := false } }
  callChangeListeners s

/-- Source `WifiManager::forget`. -/
def forget (s : Sys) : Sys :=
  let s := disconnect false s
  let s := startCaptivePortal s
  LOG LogSite.forgetRequested s

/-- Source `WifiManager::isCaptivePortal`. -/
def isCaptivePortal (s : Sys) : Bool := s.self.inCaptivePortal

/-- Source `WifiManager::connectSavedWifi`. -/
def connectSavedWifi (polls : List Yield) (s : Sys) : Bool × Sys :=
  let s := LOG LogSite.savedRfcName s
  let s := WiFi.mode WIFI_STA s
  let s := WiFi.persistent true s
  let s :=
    if !(WiFi.SSID s).isEmpty then
      let s := ETS_UART_INTR_DISABLE s
      let s := wifi_station_disconnect s
      let s := ETS_UART_INTR_ENABLE s
      WiFi.beginStored s
    else s
  let r := waitForConnectResult timeout polls s
  if r.1 = WL_CONNECTED.code then
    let s := LOG LogSite.savedConnected r.2
    let s := WiFi.setHostname s.self.rfcName s
    let s := WiFi.setAutoReconnect true s
    let s := WiFi.persistent true s
    (true, s)
  else
    (false, r.2)

/-- Source `WifiManager::connectNewWifi`. -/
def connectNewWifi (newSSID newPass : String) (e : SwapEnv) (s : Sys) : Sys :=
  let s := WiFi.setHostname s.self.rfcName s
  if !(WiFi.status s == WL_CONNECTED && WiFi.SSID s == newSSID) then
    let s := ETS_UART_INTR_DISABLE s
    let s := wifi_station_disconnect s
    let s := ETS_UART_INTR_ENABLE s
    let oldSSID := WiFi.SSID s
    let oldPSK := WiFi.psk s
    let s := WiFi.begin newSSID newPass s
    let s := delay 2000 e.pause s
    let r := WiFi.waitForConnectResult e.first s
    if r.1 ≠ WL_CONNECTED.code then
      let s := LOG LogSite.newUnsuccessful r.2
      if !s.self.inCaptivePortal then
        let s := WiFi.begin oldSSID oldPSK s
        let r2 := WiFi.waitForConnectResult e.second s
        if r2.1 ≠ WL_CONNECTED.code then
          let s := LOG LogSite.reconnectionFailed r2.2
          startCaptivePortal s
        else
          let s := LOG LogSite.reconnectionOk r2.2
          let s := LOG LogSite.reconnectionIp s
          let s := WiFi.setHostname s.self.rfcName s
          let s := WiFi.setAutoReconnect true s
          WiFi.persistent true s
      else s
    else
      let s := if r.2.self.inCaptivePortal then stopCaptivePortal r.2 else r.2
      LOG LogSite.newSuccessful s
  else s

/-- First statement of `loop`: in captive mode, pump the DNS responder and ask for a reboot
once the portal has been open for more than 5 minutes. The difference is taken in 64 bits,
the width of `captivePortalStart`. -/
def loopPortal (s : Sys) : Sys :=
  if s.self.inCaptivePortal then
    let s := s.emit Event.dnsProcessNextRequest
    if subMod U64 (millis s) s.self.captivePortalStart > 5 * 60 * 1000 then
      operations.reboot s
    else s
  else s

/-- Second statement of `loop`: apply a pending credential swap. -/
def loopSwap (e : SwapEnv) (s : Sys) : Sys :=
  if s.self.reconnect then
    let s := connectNewWifi s.self.ssid s.self.pass e s
    { s with self := { s.self with reconnect := false } }
  else s

/-- The condition under which `loop` checks the link: the retry interval has elapsed on the
32-bit clock, or the disconnect callback has fired. -/
def checkDue (s : Sys) : Bool :=
  decide (subMod U32 (millis s) s.self.reconnectLastRetry ≥ connectionRetryInterval)
    || s.self.checkConnection

/-- Third statement of `loop`: outside captive mode, the periodic link check. -/
def loopCheck (polls : List Yield) (s : Sys) : Sys :=
  if !s.self.inCaptivePortal then
    let now := millis s
    if checkDue s then
      let s := { s with self := { s.self with checkConnection := false } }
      if !WiFi.isConnected s then
        if s.self.reconnectRetries ≤ maxConnectionRetries then
          let s := LOG LogSite.retryNo s
          let r := connectSavedWifi polls s
          let s :=
            if !r.1 then LOG LogSite.savedFailed r.2
            else LOG LogSite.savedSucceeded r.2
          let s := { s with self := { s.self with
            reconnectRetries := (s.self.reconnectRetries + 1) % 256 } }
          { s with self := { s.self with reconnectLastRetry := millis s } }
        else
          startCaptivePortal s
      else
        if decide (subMod U32 now s.self.reconnectLastRetry ≥ connectionRetryInterval)
            && decide (s.self.reconnectRetries ≠ 0) then
          let s := LOG LogSite.stable s
          { s with self := { s.self with reconnectRetries := 0 } }
        else s
    else s
  else s

/-- The two tests (lines 227 and 233 of the source) under which the first statement of `loop`
calls `operations::instance.reboot()`. -/
def restartDue (s : Sys) : Bool :=
  s.self.inCaptivePortal &&
    decide (subMod U64 (millis s) s.self.captivePortalStart > 5 * 60 * 1000)

/-- Source `WifiManager::loop`: its three statements in order. When the first statement calls
`reboot()` the device restarts and the call does not come back, so the other two statements
do not run in that call. -/
def loop (e : LoopEnv) (s : Sys) : Sys :=
  if restartDue s then loopPortal s
  else loopCheck e.saved (loopSwap e.swap (loopPortal s))

end WifiManager

open WifiManager

/-! ## Host name and start-up -/

/-- Width of `size_t` and of `unsigned int` on the ESP8266: 32 bits. -/
def SIZE_W : Nat := 4294967296

/-- C library `isalnum` in the "C" locale: ASCII letters and digits. A character outside
ASCII is a sequence of bytes above 127 in the C++ string, each of which `isalnum` rejects. -/
def isalnum (c : Char) : Bool := c.isAlphanum

/-- C library `isspace` in the "C" locale: space, tab, line feed, vertical tab, form feed,
carriage return. -/
def isspace (c : Char) : Bool :=
  c.toNat = 32 || (9 ≤ c.toNat && c.toNat ≤ 13)

/-- Arduino `String::trim`: white space removed at both ends. -/
def trim (str : List Char) : List Char :=
  ((str.dropWhile isspace).reverse.dropWhile isspace).reverse

/-- Arduino `String::operator[]`: the character at `index`, and 0 when `index` is out of
range. -/
def charAt (str : List Char) (index : Nat) : Char :=
  if h : index < str.length then str.get ⟨index, h⟩ else Char.ofNat 0

/-- Arduino `String::substring(left, right)`: bounds swapped when out of order, empty when
`left` is past the end, `right` clamped to the length. -/
def substring (str : List Char) (left right : Nat) : List Char :=
  let l := if left > right then right else left
  let r := if left > right then left else right
  if l ≥ str.length then []
  else
    let r := if r > str.length then str.length else r
    (str.drop l).take (r - l)

/-- The `for` loop of `getRFC952Hostname`: letters, digits and hyphens are appended to `acc`,
and the loop is left as soon as `acc` holds `maxLength` characters. -/
def collect (maxLength : Nat) : List Char → List Char → List Char
  | [], acc => acc
  | c :: cs, acc =>
      let acc := if isalnum c || c = '-' then acc ++ [c] else acc
      if acc.length ≥ maxLength then acc else collect maxLength cs acc

/-- The `while` loop of `getRFC952Hostname`: `i` moves down while the character at `i` is a
hyphen and `i > 0`. -/
def stripIndex (str : List Char) : Nat → Nat
  | 0 => 0
  | i + 1 => if charAt str (i + 1) = '-' then stripIndex str i else i + 1

namespace WifiManager

/-- Source `WifiManager::getRFC952Hostname`, on the characters of the name. -/
def getRFC952HostnameChars (name : List Char) : List Char :=
  let rfc952Hostname := collect 24 name []
  let i := (rfc952Hostname.length + (SIZE_W - 1)) % SIZE_W
  let i := stripIndex rfc952Hostname i
  substring rfc952Hostname 0 i

/-- Source `WifiManager::getRFC952Hostname`. -/
def getRFC952Hostname (name : String) : String :=
  String.mk (getRFC952HostnameChars name.data)

/-- The statements of `begin` before the connection attempt. `hostName` stands for
`config::instance.data.hostName` and `chipId` for `ESP.getChipId()`. -/
def beginSetup (hostName : String) (chipId : Nat) (s : Sys) : Sys :=
  let rfcName := trim hostName.data
  let rfcName :=
    if rfcName.isEmpty then "ESP-".data ++ Nat.toDigits 16 chipId else rfcName
  let rfcName := getRFC952Hostname (String.mk rfcName)
  let s := { s with self := { s.self with rfcName := rfcName } }
  let s := LOG LogSite.beginRfcName s
  let s := WiFi.persistent false s
  let s := s.emit Event.onStationModeDisconnected
  WiFi.setAutoReconnect true s

/-- Source `WifiManager::begin`. -/
def begin (hostName : String) (chipId : Nat) (polls : List Yield) (s : Sys) : Sys :=
  let s := beginSetup hostName chipId s
  let r := connectSavedWifi polls s
  if !r.1 then startCaptivePortal r.2 else r.2

end WifiManager

/-! ## Observables on the trace -/

/-- Number of trace entries whose event satisfies `p`. -/
def evCount (p : Event → Bool) (tr : List (Nat × Event)) : Nat :=
  tr.countP (fun x => p x.2)

/-- Entry of `connectSavedWifi`: one saved-credential connection attempt. -/
def isSavedAttempt : Event → Bool
  | Event.log LogSite.savedRfcName => true
  | _ => false

/-- A connect command given to the radio: `WiFi.begin()` or `WiFi.begin(ssid, psk, ...)`. -/
def isConnect : Event → Bool
  | Event.beginStored => true
  | Event.beginWith _ _ => true
  | _ => false

/-- A teardown of the station association: `wifi_station_disconnect()` or `WiFi.disconnect`. -/
def isTeardown : Event → Bool
  | Event.stationDisconnect => true
  | Event.disconnect _ => true
  | _ => false

/-- A restart request: `operations::instance.reboot()`. -/
def isReboot : Event → Bool
  | Event.reboot => true
  | _ => false

/-- The connect commands in a trace, newest first. -/
def connectLog (tr : List (Nat × Event)) : List Event :=
  (tr.filter (fun x => isConnect x.2)).map Prod.snd

/-- Outcome "candidate credentials active" of a swap from `s` to `s1`: outside captive mode,
link connected, the radio configured for the candidate name, and no rollback connect issued
(at most the one connect for the candidate). -/
def candidateActive (newSSID : String) (s s1 : Sys) : Prop :=
  s1.self.inCaptivePortal = false ∧ WiFi.status s1 = WL_CONNECTED ∧ WiFi.SSID s1 = newSSID ∧
    evCount isConnect s1.hw.trace ≤ evCount isConnect s.hw.trace + 1

/-- Outcome "old credentials restored" of a swap from `s` to `s1`: outside captive mode, link
connected, the radio configured with the name and secret it had before, after a second
(rollback) connect. -/
def oldRestored (s s1 : Sys) : Prop :=
  s1.self.inCaptivePortal = false ∧ WiFi.status s1 = WL_CONNECTED ∧ WiFi.SSID s1 = WiFi.SSID s ∧
    WiFi.psk s1 = WiFi.psk s ∧ evCount isConnect s1.hw.trace = evCount isConnect s.hw.trace + 2

/-- Outcome "captive mode active". -/
def captiveActive (s1 : Sys) : Prop :=
  s1.self.inCaptivePortal = true

/-! ## Runs of the supervisor -/

/-- The log line `loop` writes right after `connectSavedWifi` has returned: the end of one
saved-credential connection attempt. -/
def isAttemptEnd : Event → Bool
  | Event.log LogSite.savedFailed => true
  | Event.log LogSite.savedSucceeded => true
  | _ => false

/-- Time at which the most recent saved-credential attempt of a trace ended. -/
def lastAttemptEnd : List (Nat × Event) → Option Nat
  | [] => none
  | x :: tr => if isAttemptEnd x.2 = true then some x.1 else lastAttemptEnd tr

/-- Every saved-credential attempt of the trace starts at least one retry interval after
the attempt before it has ended. -/
def spaced : List (Nat × Event) → Prop
  | [] => True
  | x :: tr =>
      (isSavedAttempt x.2 = true →
        ∀ u, lastAttemptEnd tr = some u → u + connectionRetryInterval ≤ x.1) ∧ spaced tr

/-- What can happen to the supervisor: a call of `loop`, time passing between two calls (with
the link status the radio reports afterwards), the station-disconnected callback, the two
requests of the configuration interface, and the call of `begin`. -/
inductive Step
  | tick (e : LoopEnv)
  | idle (dt : Nat) (st : wl_status_t)
  | disconnected
  | newWifi (ssid pass : String)
  | forget
  | begin (hostName : String) (chipId : Nat) (polls : List Yield)

/-- Effect of one step. -/
def Step.apply : Step → Sys → Sys
  | Step.tick e, s => loop e s
  | Step.idle dt st, s => s.observe dt st
  | Step.disconnected, s => onDisconnect s
  | Step.newWifi a b, s => setNewWifi a b s
  | Step.forget, s => WifiManager.forget s
  | Step.begin h c polls, s => WifiManager.begin h c polls s

/-- Effect of a sequence of steps, first step first. A call of `loop` that restarts the device
leaves the state as it was at the restart, and the steps after it apply to that state; the
restarted device itself starts again from a supervisor as constructed. -/
def exec : List Step → Sys → Sys
  | [], s => s
  | st :: rest, s => exec rest (st.apply s)

/-- Executable form of `spaced`. -/
def spacedCheck : List (Nat × Event) → Bool
  | [] => true
  | x :: tr =>
    (!isSavedAttempt x.2 ||
      (match lastAttemptEnd tr with
        | none => true
        | some u => decide (u + connectionRetryInterval ≤ x.1))) && spacedCheck tr

/-- No station-disconnected callback fires during this call of `loop`. -/
def quietEnv (e : LoopEnv) : Bool :=
  !e.swap.pause.notify && !e.swap.first.notify && !e.swap.second.notify &&
    e.saved.all (fun y => !y.notify)

/-- A step of a run that consists of calls of `loop` only: a call of `loop` during which no
callback fires, or time passing between two calls. -/
def Step.quietTick : Step → Bool
  | Step.tick e => quietEnv e
  | Step.idle _ _ => true
  | _ => false

/-- The link has been up without a break for at least one retry interval. -/
def sustained (s : Sys) : Bool :=
  match s.hw.upSince with
  | some u => decide (u + connectionRetryInterval ≤ s.hw.time)
  | none => false

/-- This call of `loop` sets a nonzero failure count back to 0. -/
def resetsAt (e : LoopEnv) (s : Sys) : Bool :=
  decide (s.self.reconnectRetries ≠ 0) && decide ((loop e s).self.reconnectRetries = 0)

/-- Invariant of a run in which no callback fires after the first attempt: the attempts so far
are spaced, and once an attempt has ended at time `u`, that time is not in the future, the
callback flag is down, and the retry timer holds the 32-bit clock value read at `u`. -/
def retryInv (s : Sys) : Prop :=
  spaced s.hw.trace ∧
    ∀ u, lastAttemptEnd s.hw.trace = some u →
      u ≤ s.hw.time ∧ s.self.checkConnection = false ∧ s.self.reconnectLastRetry = u % U32

/-! ## Concrete states and environments -/

/-- A supervisor outside captive mode whose retries are used up (11 failures), with the
callback flag raised, on a device whose link is down. -/
def exhaustedState : Sys :=
  { self := { rfcName := "clock", reconnectRetries := 11, reconnectLastRetry := 1000,
              checkConnection := true },
    hw := { time := 5000, opmode := 1, status := WL_DISCONNECTED, staSSID := "home",
            staPSK := "pw" } }

/-- A supervisor outside captive mode after 3 failures, timer set at 1000 ms, on a device
whose link is down at 40000 ms. -/
def retryState : Sys :=
  { self := { rfcName := "clock", reconnectRetries := 3, reconnectLastRetry := 1000 },
    hw := { time := 40000, opmode := 1, status := WL_DISCONNECTED, staSSID := "home",
            staPSK := "pw" } }

/-- A call of `loop` during which the saved network stays out of reach for the whole minute. -/
def noNetworkEnv : LoopEnv :=
  { saved := [{ dt := 60000, status := WL_NO_SSID_AVAIL }] }

/-- A supervisor outside captive mode, connected to "home". -/
def homeState : Sys :=
  { self := { rfcName := "clock", reconnectRetries := 2 },
    hw := { time := 40000, opmode := 1, status := WL_CONNECTED, staSSID := "home",
            staPSK := "pw", upSince := some 1000 } }

/-- The candidate is rejected after 5 s, the rollback connects after 3 s. -/
def rollbackOkEnv : SwapEnv :=
  { first := { dt := 5000, result := some WL_WRONG_PASSWORD },
    second := { dt := 3000, result := some WL_CONNECTED } }

/-- A supervisor in captive mode since 50000 ms, at 400000 ms. -/
def portalState : Sys :=
  { self := { rfcName := "clock", inCaptivePortal := true, captivePortalStart := 50000,
              dnsServer := DnsPtr.live },
    hw := { time := 400000, opmode := 2, status := WL_DISCONNECTED } }

/-- A run of two calls of `loop`, 30 s apart, with the saved network out of reach. -/
def twoAttempts : List Step :=
  [Step.tick noNetworkEnv, Step.idle 30000 WL_DISCONNECTED, Step.tick noNetworkEnv]

/-- A freshly constructed supervisor on a device whose link is down, nothing traced yet. -/
def freshDown : Sys :=
  { self := { rfcName := "clock" },
    hw := { time := 5000, opmode := 1, status := WL_DISCONNECTED, staSSID := "home",
            staPSK := "pw" } }

/-- A freshly constructed supervisor on a device connected to "home" since 40000 ms, at
100000 ms. -/
def freshUp : Sys :=
  { self := { rfcName := "clock" },
    hw := { time := 100000, opmode := 1, status := WL_CONNECTED, staSSID := "home",
            staPSK := "pw", upSince := some 40000 } }

/-- The link drops at 105000 ms and the callback fires; the attempt of the next call of `loop`
times out at 165000 ms; the radio reassociates by itself at 194999 ms; it is 195000 ms. -/
def lateLinkRun : List Step :=
  [Step.idle 5000 WL_DISCONNECTED, Step.disconnected,
   Step.tick { saved := [{ dt := 60000, status := WL_DISCONNECTED }] },
   Step.idle 29999 WL_CONNECTED, Step.idle 1 WL_CONNECTED]

/-- A supervisor outside captive mode with one failure, connected to "home", and a pending
swap to "cafe". -/
def pendingSwapState : Sys :=
  { self := { rfcName := "clock", reconnectRetries := 1, reconnect := true, ssid := "cafe",
              pass := "secret" },
    hw := { time := 40000, opmode := 1, status := WL_CONNECTED, staSSID := "home",
            staPSK := "pw", upSince := some 1000 } }

/-- Both the candidate and the rollback time out. -/
def swapFailsEnv : LoopEnv :=
  { swap := { first := { dt := 60000, result := none },
              second := { dt := 60000, result := none } } }

/-! ## Observables for the wait, the host name and the reachable states -/

/-- The statuses on which `waitForConnectResult` stops waiting: every status but
`WL_DISCONNECTED` and `WL_NO_SSID_AVAIL`. -/
def definitive (st : wl_status_t) : Bool :=
  decide (st ≠ WL_DISCONNECTED) && decide (st ≠ WL_NO_SSID_AVAIL)

/-- The state after the yields of `polls`, in order. -/
def yields : List Yield → Sys → Sys
  | [], s => s
  | p :: ps, s => yields ps (yield p s)

/-- Milliseconds that pass during the yields of `polls`. -/
def elapsed (polls : List Yield) : Nat :=
  (polls.map (fun p => p.dt)).sum

/-- A character the sanitizer keeps: an ASCII letter, a digit or a hyphen. -/
def accepted (c : Char) : Bool := isalnum c || c = '-'

/-- A list of characters without the hyphens at its end. -/
def dropTrailingHyphens (l : List Char) : List Char :=
  (l.reverse.dropWhile (fun c => c = '-')).reverse

/-- The host name as the specification words it: the accepted characters of the name, in
order, cut after the first 24, without the hyphens at the end. -/
def specHostname (name : String) : String :=
  String.mk (dropTrailingHyphens ((name.data.filter accepted).take 24))

/-- A state of the supervisor as constructed: every member at its in-class initial value. -/
def initial (s : Sys) : Prop := s.self = {}

/-- In captive mode the DNS responder pointer refers to a live object. -/
def dnsLive (s : Sys) : Prop :=
  s.self.inCaptivePortal = true → s.self.dnsServer = DnsPtr.live

/-- A use of the DNS responder through the pointer: `dnsServer->processNextRequest()`. -/
def isPump : Event → Bool
  | Event.dnsProcessNextRequest => true
  | _ => false

/-- True elapsed time, reduced mod 2^32, between `start` and `now`. -/
def elapsed32 (start now : Nat) : Nat := (now - start) % U32

/-! ## More concrete states and environments -/

/-- A device in station mode whose link is down, at 5000 ms. -/
def stationDown : Sys :=
  { self := { rfcName := "clock" },
    hw := { time := 5000, opmode := 1, status := WL_DISCONNECTED, staSSID := "home",
            staPSK := "pw" } }

/-- The radio finds no matching network after 1 s and still none 59 s later. -/
def noMatchPolls : List Yield :=
  [{ dt := 1000, status := WL_NO_SSID_AVAIL }, { dt := 59000, status := WL_NO_SSID_AVAIL }]

/-- The radio finds no matching network after 1 s; 2 s later the password is rejected. -/
def rejectedPoll : Yield := { dt := 2000, status := WL_WRONG_PASSWORD }

/-- The link comes up 3 s into the wait. -/
def connectPolls : List Yield :=
  [{ dt := 1000, status := WL_DISCONNECTED }, { dt := 2000, status := WL_CONNECTED }]

/-- A supervisor in captive mode, portal entered 1000 ms before the 32-bit clock wraps, at
500 ms after the wrap: the portal has been open for 1500 ms. -/
def wrappedPortalState : Sys :=
  { self := { rfcName := "clock", inCaptivePortal := true, captivePortalStart := 4294966296,
              dnsServer := DnsPtr.live },
    hw := { time := 4294967796, opmode := 2, status := WL_DISCONNECTED } }

/-- A supervisor in captive mode since 50000 ms, at 400000 ms, with a pending swap to
"cafe". -/
def stalePortalSwapState : Sys :=
  { self := { rfcName := "clock", inCaptivePortal := true, captivePortalStart := 50000,
              dnsServer := DnsPtr.live, reconnect := true, ssid := "cafe", pass := "secret" },
    hw := { time := 400000, opmode := 2, status := WL_DISCONNECTED } }

/-- The candidate connects after 4 s. -/
def swapOkEnv : LoopEnv :=
  { swap := { first := { dt := 4000, result := some WL_CONNECTED } } }

/-- A supervisor as constructed, on a device whose link is down, at 100 ms. -/
def powerOn : Sys :=
  { hw := { time := 100, status := WL_DISCONNECTED, staSSID := "home", staPSK := "pw" } }

/-- Boot with the link coming up; the link drops and the callback fires; then twelve calls of
`loop`, 30 s apart, with the saved network out of reach. -/
def bootAndRetries : List Step :=
  [Step.begin "clock" 11256099 connectPolls, Step.idle 1000 WL_DISCONNECTED,
    Step.disconnected] ++
    (List.replicate 12 [Step.tick noNetworkEnv, Step.idle 30000 WL_DISCONNECTED]).flatten

/-- A call of `loop` during which the saved network stays out of reach for the whole minute
and the station-disconnected callback fires while the attempt waits. -/
def noisyEnv : LoopEnv :=
  { saved := [{ dt := 60000, status := WL_NO_SSID_AVAIL, notify := true }] }

/-- Two calls of `loop`, one right after the other; the callback fires during the first. -/
def interruptedAttempts : List Step :=
  [Step.tick noisyEnv, Step.tick noNetworkEnv]

/-! ## What each primitive changes -/

@[simp]
theorem emit_self (s : Sys) (e : Event) : (s.emit e).self = s.self := rfl
@[simp]
theorem emit_time (s : Sys) (e : Event) : (s.emit e).hw.time = s.hw.time := rfl
@[simp]
theorem emit_opmode (s : Sys) (e : Event) : (s.emit e).hw.opmode = s.hw.opmode := rfl
@[simp]
theorem emit_status (s : Sys) (e : Event) : (s.emit e).hw.status = s.hw.status := rfl
@[simp]
theorem emit_staSSID (s : Sys) (e : Event) : (s.emit e).hw.staSSID = s.hw.staSSID := rfl
@[simp]
theorem emit_staPSK (s : Sys) (e : Event) : (s.emit e).hw.staPSK = s.hw.staPSK := rfl
@[simp]
theorem emit_upSince (s : Sys) (e : Event) : (s.emit e).hw.upSince = s.hw.upSince := rfl
@[simp]
theorem emit_trace (s : Sys) (e : Event) : (s.emit e).hw.trace = (s.hw.time, e) :: s.hw.trace := rfl

@[simp]
theorem observe_self (s : Sys) (dt : Nat) (st : wl_status_t) : (s.observe dt st).self = s.self := rfl
@[simp]
theorem observe_time (s : Sys) (dt : Nat) (st : wl_status_t) :
    (s.observe dt st).hw.time = s.hw.time + dt := rfl
@[simp]
theorem observe_opmode (s : Sys) (dt : Nat) (st : wl_status_t) :
    (s.observe dt st).hw.opmode = s.hw.opmode := rfl
@[simp]
theorem observe_status (s : Sys) (dt : Nat) (st : wl_status_t) :
    (s.observe dt st).hw.status = st := rfl
@[simp]
theorem observe_staSSID (s : Sys) (dt : Nat) (st : wl_status_t) :
    (s.observe dt st).hw.staSSID = s.hw.staSSID := rfl
@[simp]
theorem observe_staPSK (s : Sys) (dt : Nat) (st : wl_status_t) :
    (s.observe dt st).hw.staPSK = s.hw.staPSK := rfl
@[simp]
theorem observe_trace (s : Sys) (dt : Nat) (st : wl_status_t) :
    (s.observe dt st).hw.trace = s.hw.trace := rfl

@[simp]
theorem mode_self (s : Sys) (m : Nat) : (WiFi.mode m s).self = s.self := rfl
@[simp]
theorem mode_time (s : Sys) (m : Nat) : (WiFi.mode m s).hw.time = s.hw.time := rfl
@[simp]
theorem mode_opmode (s : Sys) (m : Nat) : (WiFi.mode m s).hw.opmode = m := rfl
@[simp]
theorem mode_status (s : Sys) (m : Nat) : (WiFi.mode m s).hw.status = s.hw.status := rfl
@[simp]
theorem mode_staSSID (s : Sys) (m : Nat) : (WiFi.mode m s).hw.staSSID = s.hw.staSSID := rfl
@[simp]
theorem mode_staPSK (s : Sys) (m : Nat) : (WiFi.mode m s).hw.staPSK = s.hw.staPSK := rfl
@[simp]
theorem mode_upSince (s : Sys) (m : Nat) : (WiFi.mode m s).hw.upSince = s.hw.upSince := rfl
@[simp]
theorem mode_trace (s : Sys) (m : Nat) :
    (WiFi.mode m s).hw.trace = (s.hw.time, Event.mode m) :: s.hw.trace := rfl

@[simp]
theorem stationDisconnect_eq (s : Sys) :
    wifi_station_disconnect s = s.emit Event.stationDisconnect := rfl

@[simp]
theorem begin_self (s : Sys) (a b : String) : (WiFi.begin a b s).self = s.self := rfl
@[simp]
theorem begin_time (s : Sys) (a b : String) : (WiFi.begin a b s).hw.time = s.hw.time := rfl
@[simp]
theorem begin_opmode (s : Sys) (a b : String) : (WiFi.begin a b s).hw.opmode = s.hw.opmode := rfl
@[simp]
theorem begin_status (s : Sys) (a b : String) : (WiFi.begin a b s).hw.status = s.hw.status := rfl
@[simp]
theorem begin_staSSID (s : Sys) (a b : String) : (WiFi.begin a b s).hw.staSSID = a := rfl
@[simp]
theorem begin_staPSK (s : Sys) (a b : String) : (WiFi.begin a b s).hw.staPSK = b := rfl
@[simp]
theorem begin_upSince (s : Sys) (a b : String) :
    (WiFi.begin a b s).hw.upSince = s.hw.upSince := rfl
@[simp]
theorem begin_trace (s : Sys) (a b : String) :
    (WiFi.begin a b s).hw.trace = (s.hw.time, Event.beginWith a b) :: s.hw.trace := rfl

@[simp]
theorem disconnect_self (s : Sys) (w : Bool) : (WiFi.disconnect w s).self = s.self := rfl
@[simp]
theorem disconnect_time (s : Sys) (w : Bool) : (WiFi.disconnect w s).hw.time = s.hw.time := rfl
@[simp]
theorem disconnect_opmode (s : Sys) (w : Bool) :
    (WiFi.disconnect w s).hw.opmode = s.hw.opmode := rfl
@[simp]
theorem disconnect_status (s : Sys) (w : Bool) :
    (WiFi.disconnect w s).hw.status = s.hw.status := rfl
@[simp]
theorem disconnect_staSSID (s : Sys) (w : Bool) : (WiFi.disconnect w s).hw.staSSID = "" := rfl
@[simp]
theorem disconnect_staPSK (s : Sys) (w : Bool) : (WiFi.disconnect w s).hw.staPSK = "" := rfl
@[simp]
theorem disconnect_upSince (s : Sys) (w : Bool) :
    (WiFi.disconnect w s).hw.upSince = s.hw.upSince := rfl
@[simp]
theorem disconnect_trace (s : Sys) (w : Bool) :
    (WiFi.disconnect w s).hw.trace = (s.hw.time, Event.disconnect w) :: s.hw.trace := rfl

@[simp]
theorem status_eq (s : Sys) : WiFi.status s = s.hw.status := rfl
@[simp]
theorem SSID_eq (s : Sys) : WiFi.SSID s = s.hw.staSSID := rfl
@[simp]
theorem psk_eq (s : Sys) : WiFi.psk s = s.hw.staPSK := rfl
@[simp]
theorem opmode_eq (s : Sys) : wifi_get_opmode s = s.hw.opmode := rfl
@[simp]
theorem isConnected_eq (s : Sys) :
    WiFi.isConnected s = decide (s.hw.status = WL_CONNECTED) := rfl

@[simp]
theorem LOG_eq (site : LogSite) (s : Sys) : LOG site s = s.emit (Event.log site) := rfl

@[simp]
theorem reboot_eq (s : Sys) : operations.reboot s = s.emit Event.reboot := rfl

@[simp]
theorem callChangeListeners_eq (s : Sys) :
    callChangeListeners s = s.emit Event.callChangeListeners := rfl

@[simp]
theorem intrDisable_eq (s : Sys) : ETS_UART_INTR_DISABLE s = s.emit Event.intrDisable := rfl

@[simp]
theorem intrEnable_eq (s : Sys) : ETS_UART_INTR_ENABLE s = s.emit Event.intrEnable := rfl

@[simp]
theorem persistent_eq (b : Bool) (s : Sys) : WiFi.persistent b s = s.emit (Event.persistent b) :=
  rfl

@[simp]
theorem setAutoReconnect_eq (b : Bool) (s : Sys) :
    WiFi.setAutoReconnect b s = s.emit (Event.setAutoReconnect b) := rfl

@[simp]
theorem setHostname_eq (n : String) (s : Sys) :
    WiFi.setHostname n s = s.emit (Event.setHostname n) := rfl

@[simp]
theorem softAP_eq (n : String) (s : Sys) : WiFi.softAP n s = s.emit (Event.softAP n) := rfl

@[simp]
theorem beginStored_eq (s : Sys) : WiFi.beginStored s = s.emit Event.beginStored := rfl

@[simp]
theorem managerDisconnect_eq (w : Bool) (s : Sys) :
    WifiManager.disconnect w s = WiFi.disconnect w s := rfl

@[simp]
theorem onDisconnect_self (s : Sys) :
    (onDisconnect s).self = { s.self with checkConnection := true } := rfl
@[simp]
theorem onDisconnect_time (s : Sys) : (onDisconnect s).hw.time = s.hw.time := rfl
@[simp]
theorem onDisconnect_opmode (s : Sys) : (onDisconnect s).hw.opmode = s.hw.opmode := rfl
@[simp]
theorem onDisconnect_status (s : Sys) : (onDisconnect s).hw.status = s.hw.status := rfl
@[simp]
theorem onDisconnect_staSSID (s : Sys) : (onDisconnect s).hw.staSSID = s.hw.staSSID := rfl
@[simp]
theorem onDisconnect_staPSK (s : Sys) : (onDisconnect s).hw.staPSK = s.hw.staPSK := rfl
@[simp]
theorem onDisconnect_upSince (s : Sys) : (onDisconnect s).hw.upSince = s.hw.upSince := rfl
@[simp]
theorem onDisconnect_trace (s : Sys) :
    (onDisconnect s).hw.trace = (s.hw.time, Event.log LogSite.staDisconnected) :: s.hw.trace := rfl

@[simp]
theorem yield_self (y : Yield) (s : Sys) :
    (yield y s).self = { s.self with checkConnection := y.notify || s.self.checkConnection } := by
  cases h : y.notify <;> simp [yield, h]

@[simp]
theorem yield_time (y : Yield) (s : Sys) : (yield y s).hw.time = s.hw.time + y.dt := by
  cases h : y.notify <;> simp [yield, h]

@[simp]
theorem yield_opmode (y : Yield) (s : Sys) : (yield y s).hw.opmode = s.hw.opmode := by
  cases h : y.notify <;> simp [yield, h]

@[simp]
theorem yield_status (y : Yield) (s : Sys) : (yield y s).hw.status = y.status := by
  cases h : y.notify <;> simp [yield, h]

@[simp]
theorem yield_staSSID (y : Yield) (s : Sys) : (yield y s).hw.staSSID = s.hw.staSSID := by
  cases h : y.notify <;> simp [yield, h]

@[simp]
theorem yield_staPSK (y : Yield) (s : Sys) : (yield y s).hw.staPSK = s.hw.staPSK := by
  cases h : y.notify <;> simp [yield, h]

@[simp]
theorem yield_trace (y : Yield) (s : Sys) :
    (yield y s).hw.trace =
      if y.notify then (s.hw.time + y.dt, Event.log LogSite.staDisconnected) :: s.hw.trace
      else s.hw.trace := by
  cases h : y.notify <;> simp [yield, h]

/-- The numeric result of a wait is `WL_CONNECTED` exactly when the radio reported it. -/
theorem code_eq_connected (r : Option wl_status_t) :
    ((match r with
      | some x => x.code
      | none => (-1 : Int)) = WL_CONNECTED.code) ↔ r = some WL_CONNECTED := by
  cases r with
  | none => simp [wl_status_t.code]
  | some x => cases x <;> simp [wl_status_t.code]

@[simp]
theorem libWait_result (o : LibWait) (s : Sys) :
    ((WiFi.waitForConnectResult o s).1 = WL_CONNECTED.code) ↔ o.result = some WL_CONNECTED := by
  simp [WiFi.waitForConnectResult, code_eq_connected]

@[simp]
theorem libWait_self (o : LibWait) (s : Sys) :
    (WiFi.waitForConnectResult o s).2.self =
      { s.self with checkConnection := o.notify || s.self.checkConnection } := by
  cases h : o.notify <;> simp [WiFi.waitForConnectResult, h]

@[simp]
theorem libWait_time (o : LibWait) (s : Sys) :
    (WiFi.waitForConnectResult o s).2.hw.time = s.hw.time + o.dt := by
  cases h : o.notify <;> simp [WiFi.waitForConnectResult, h]

@[simp]
theorem libWait_opmode (o : LibWait) (s : Sys) :
    (WiFi.waitForConnectResult o s).2.hw.opmode = s.hw.opmode := by
  cases h : o.notify <;> simp [WiFi.waitForConnectResult, h]

@[simp]
theorem libWait_status (o : LibWait) (s : Sys) :
    (WiFi.waitForConnectResult o s).2.hw.status =
      (match o.result with
        | some r => r
        | none => WL_DISCONNECTED) := by
  cases h : o.notify <;> simp [WiFi.waitForConnectResult, h]

@[simp]
theorem libWait_staSSID (o : LibWait) (s : Sys) :
    (WiFi.waitForConnectResult o s).2.hw.staSSID = s.hw.staSSID := by
  cases h : o.notify <;> simp [WiFi.waitForConnectResult, h]

@[simp]
theorem libWait_staPSK (o : LibWait) (s : Sys) :
    (WiFi.waitForConnectResult o s).2.hw.staPSK = s.hw.staPSK := by
  cases h : o.notify <;> simp [WiFi.waitForConnectResult, h]

@[simp]
theorem libWait_trace (o : LibWait) (s : Sys) :
    (WiFi.waitForConnectResult o s).2.hw.trace =
      if o.notify then (s.hw.time + o.dt, Event.log LogSite.staDisconnected) :: s.hw.trace
      else s.hw.trace := by
  cases h : o.notify <;> simp [WiFi.waitForConnectResult, h]

@[simp]
theorem evCount_nil (p : Event → Bool) : evCount p [] = 0 := rfl

@[simp]
theorem evCount_cons (p : Event → Bool) (x : Nat × Event) (tr : List (Nat × Event)) :
    evCount p (x :: tr) = evCount p tr + (if p x.2 = true then 1 else 0) := by
  simp [evCount, List.countP_cons]

@[simp]
theorem evCount_ite (p : Event → Bool) (c : Prop) [Decidable c] (a b : List (Nat × Event)) :
    evCount p (if c then a else b) = if c then evCount p a else evCount p b := by
  split_ifs <;> rfl

@[simp]
theorem connectLog_nil : connectLog [] = [] := rfl

@[simp]
theorem connectLog_cons (x : Nat × Event) (tr : List (Nat × Event)) :
    connectLog (x :: tr) = if isConnect x.2 = true then x.2 :: connectLog tr else connectLog tr := by
  by_cases h : isConnect x.2 = true <;> simp [connectLog, List.filter_cons, h]

@[simp]
theorem connectLog_ite (c : Prop) [Decidable c] (a b : List (Nat × Event)) :
    connectLog (if c then a else b) = if c then connectLog a else connectLog b := by
  split_ifs <;> rfl

/-! ## The wait for a connect result -/

/-- What `waitLoop` can change: it raises `checkConnection` when a callback fired, lets time
pass, and logs the callbacks; with no callback it leaves the supervisor and the trace alone. -/
theorem waitLoop_spec (T start : Nat) (ys : List Yield) (s : Sys) :
    ∃ (b : Bool) (ext : List (Nat × Event)),
      (waitLoop T start ys s).2.self = { s.self with checkConnection := b || s.self.checkConnection }
      ∧ (waitLoop T start ys s).2.hw.trace = ext ++ s.hw.trace
      ∧ (∀ x ∈ ext, x.2 = Event.log LogSite.staDisconnected)
      ∧ s.hw.time ≤ (waitLoop T start ys s).2.hw.time
      ∧ (waitLoop T start ys s).2.hw.staSSID = s.hw.staSSID
      ∧ (waitLoop T start ys s).2.hw.staPSK = s.hw.staPSK
      ∧ (waitLoop T start ys s).2.hw.opmode = s.hw.opmode
      ∧ ((∀ y ∈ ys, y.notify = false) → b = false ∧ ext = []) := by
  induction ys generalizing s with
  | nil =>
    refine ⟨false, [], ?_⟩
    simp only [waitLoop]
    split_ifs <;> simp
  | cons y ys ih =>
    simp only [waitLoop]
    split_ifs with h1 h2
    · exact ⟨false, [], by simp⟩
    · refine ⟨y.notify, if y.notify then [(s.hw.time + y.dt, Event.log LogSite.staDisconnected)]
        else [], ?_⟩
      cases hy : y.notify <;> simp [hy]
    · obtain ⟨b, ext, hs, ht, hall, htime, hssid, hpsk, hop, hq⟩ := ih (yield y s)
      refine ⟨b || y.notify, ext ++ (if y.notify then
        [(s.hw.time + y.dt, Event.log LogSite.staDisconnected)] else []), ?_⟩
      rw [hs, ht, hssid, hpsk, hop]
      refine ⟨?_, ?_, ?_, ?_, ?_, ?_, ?_, ?_⟩
      · simp [Bool.or_assoc]
      · cases hy : y.notify <;> simp [hy]
      · intro x hx
        rcases List.mem_append.mp hx with hx | hx
        · exact hall x hx
        · cases hy : y.notify <;> simp [hy] at hx
          rw [hx]
      · have := yield_time y s
        omega
      · simp
      · simp
      · simp
      · intro hall2
        have hy : y.notify = false := hall2 y (List.mem_cons_self _ _)
        obtain ⟨hb, hext⟩ := hq (fun z hz => hall2 z (List.mem_cons_of_mem _ hz))
        simp [hb, hext, hy]

/-! ## What `connectSavedWifi` changes -/

@[simp]
theorem lastAttemptEnd_cons (x : Nat × Event) (tr : List (Nat × Event)) :
    lastAttemptEnd (x :: tr) = if isAttemptEnd x.2 = true then some x.1 else lastAttemptEnd tr :=
  rfl

@[simp]
theorem lastAttemptEnd_ite (c : Prop) [Decidable c] (a b : List (Nat × Event)) :
    lastAttemptEnd (if c then a else b) = if c then lastAttemptEnd a else lastAttemptEnd b := by
  split_ifs <;> rfl

@[simp]
theorem spaced_cons (x : Nat × Event) (tr : List (Nat × Event)) :
    spaced (x :: tr) ↔
      ((isSavedAttempt x.2 = true →
        ∀ u, lastAttemptEnd tr = some u → u + connectionRetryInterval ≤ x.1) ∧ spaced tr) :=
  Iff.rfl

theorem evCount_append_disc (p : Event → Bool) (hp : p (Event.log LogSite.staDisconnected) = false)
    (ext tr : List (Nat × Event)) (h : ∀ x ∈ ext, x.2 = Event.log LogSite.staDisconnected) :
    evCount p (ext ++ tr) = evCount p tr := by
  induction ext with
  | nil => rfl
  | cons x ext ih =>
    have hx : x.2 = Event.log LogSite.staDisconnected := h x (List.mem_cons_self _ _)
    simp [hx, hp, ih (fun z hz => h z (List.mem_cons_of_mem _ hz))]

/-- The own wait of the supervisor adds no event that `p` counts, when `p` does not count the
callback's log line. -/
theorem waitForConnectResult_count (p : Event → Bool)
    (hp : p (Event.log LogSite.staDisconnected) = false) (T : Nat) (ys : List Yield) (s : Sys) :
    evCount p (waitForConnectResult T ys s).2.hw.trace = evCount p s.hw.trace := by
  unfold waitForConnectResult
  split_ifs
  · rfl
  · obtain ⟨b, ext, -, ht, hall, -⟩ := waitLoop_spec T s.hw.time ys s
    rw [ht, evCount_append_disc p hp ext _ hall]

theorem waitForConnectResult_self (T : Nat) (ys : List Yield) (s : Sys) :
    ∃ b : Bool, (waitForConnectResult T ys s).2.self =
      { s.self with checkConnection := b || s.self.checkConnection } := by
  unfold waitForConnectResult
  split_ifs
  · exact ⟨false, by simp⟩
  · obtain ⟨b, ext, hs, -⟩ := waitLoop_spec T s.hw.time ys s
    exact ⟨b, hs⟩

theorem waitForConnectResult_time (T : Nat) (ys : List Yield) (s : Sys) :
    s.hw.time ≤ (waitForConnectResult T ys s).2.hw.time := by
  unfold waitForConnectResult
  split_ifs
  · exact le_rfl
  · obtain ⟨b, ext, -, -, -, ht, -⟩ := waitLoop_spec T s.hw.time ys s
    exact ht

theorem waitForConnectResult_quiet (T : Nat) (ys : List Yield) (s : Sys)
    (hq : ∀ y ∈ ys, y.notify = false) :
    (waitForConnectResult T ys s).2.self = s.self ∧
      (waitForConnectResult T ys s).2.hw.trace = s.hw.trace := by
  unfold waitForConnectResult
  split_ifs
  · exact ⟨rfl, rfl⟩
  · obtain ⟨b, ext, hs, ht, -, -, -, -, -, hquiet⟩ := waitLoop_spec T s.hw.time ys s
    obtain ⟨hb, hext⟩ := hquiet hq
    rw [hs, ht, hb, hext]
    simp

/-- One call of `connectSavedWifi` is one saved-credential attempt. -/
theorem connectSavedWifi_attempts (polls : List Yield) (s : Sys) :
    evCount isSavedAttempt (connectSavedWifi polls s).2.hw.trace
      = evCount isSavedAttempt s.hw.trace + 1 := by
  unfold connectSavedWifi
  simp only []
  split_ifs <;> simp [waitForConnectResult_count isSavedAttempt rfl, isSavedAttempt]

theorem connectSavedWifi_reboots (polls : List Yield) (s : Sys) :
    evCount isReboot (connectSavedWifi polls s).2.hw.trace = evCount isReboot s.hw.trace := by
  unfold connectSavedWifi
  simp only []
  split_ifs <;> simp [waitForConnectResult_count isReboot rfl, isReboot]

@[simp]
theorem waitForConnectResult_dnsServer (T : Nat) (ys : List Yield) (s : Sys) :
    (waitForConnectResult T ys s).2.self.dnsServer = s.self.dnsServer := by
  obtain ⟨b, hb⟩ := waitForConnectResult_self T ys s
  rw [hb]

@[simp]
theorem waitForConnectResult_ssid (T : Nat) (ys : List Yield) (s : Sys) :
    (waitForConnectResult T ys s).2.self.ssid = s.self.ssid := by
  obtain ⟨b, hb⟩ := waitForConnectResult_self T ys s
  rw [hb]

@[simp]
theorem waitForConnectResult_pass (T : Nat) (ys : List Yield) (s : Sys) :
    (waitForConnectResult T ys s).2.self.pass = s.self.pass := by
  obtain ⟨b, hb⟩ := waitForConnectResult_self T ys s
  rw [hb]

@[simp]
theorem waitForConnectResult_reconnect (T : Nat) (ys : List Yield) (s : Sys) :
    (waitForConnectResult T ys s).2.self.reconnect = s.self.reconnect := by
  obtain ⟨b, hb⟩ := waitForConnectResult_self T ys s
  rw [hb]

@[simp]
theorem waitForConnectResult_inCaptivePortal (T : Nat) (ys : List Yield) (s : Sys) :
    (waitForConnectResult T ys s).2.self.inCaptivePortal = s.self.inCaptivePortal := by
  obtain ⟨b, hb⟩ := waitForConnectResult_self T ys s
  rw [hb]

@[simp]
theorem waitForConnectResult_captivePortalStart (T : Nat) (ys : List Yield) (s : Sys) :
    (waitForConnectResult T ys s).2.self.captivePortalStart = s.self.captivePortalStart := by
  obtain ⟨b, hb⟩ := waitForConnectResult_self T ys s
  rw [hb]

@[simp]
theorem waitForConnectResult_rfcName (T : Nat) (ys : List Yield) (s : Sys) :
    (waitForConnectResult T ys s).2.self.rfcName = s.self.rfcName := by
  obtain ⟨b, hb⟩ := waitForConnectResult_self T ys s
  rw [hb]

@[simp]
theorem waitForConnectResult_reconnectRetries (T : Nat) (ys : List Yield) (s : Sys) :
    (waitForConnectResult T ys s).2.self.reconnectRetries = s.self.reconnectRetries := by
  obtain ⟨b, hb⟩ := waitForConnectResult_self T ys s
  rw [hb]

@[simp]
theorem waitForConnectResult_reconnectLastRetry (T : Nat) (ys : List Yield) (s : Sys) :
    (waitForConnectResult T ys s).2.self.reconnectLastRetry = s.self.reconnectLastRetry := by
  obtain ⟨b, hb⟩ := waitForConnectResult_self T ys s
  rw [hb]

@[simp]
theorem connectSavedWifi_dnsServer (polls : List Yield) (s : Sys) :
    (connectSavedWifi polls s).2.self.dnsServer = s.self.dnsServer := by
  unfold connectSavedWifi
  simp only []
  split_ifs <;> simp

@[simp]
theorem connectSavedWifi_ssid (polls : List Yield) (s : Sys) :
    (connectSavedWifi polls s).2.self.ssid = s.self.ssid := by
  unfold connectSavedWifi
  simp only []
  split_ifs <;> simp

@[simp]
theorem connectSavedWifi_pass (polls : List Yield) (s : Sys) :
    (connectSavedWifi polls s).2.self.pass = s.self.pass := by
  unfold connectSavedWifi
  simp only []
  split_ifs <;> simp

@[simp]
theorem connectSavedWifi_reconnect (polls : List Yield) (s : Sys) :
    (connectSavedWifi polls s).2.self.reconnect = s.self.reconnect := by
  unfold connectSavedWifi
  simp only []
  split_ifs <;> simp

@[simp]
theorem connectSavedWifi_inCaptivePortal (polls : List Yield) (s : Sys) :
    (connectSavedWifi polls s).2.self.inCaptivePortal = s.self.inCaptivePortal := by
  unfold connectSavedWifi
  simp only []
  split_ifs <;> simp

@[simp]
theorem connectSavedWifi_captivePortalStart (polls : List Yield) (s : Sys) :
    (connectSavedWifi polls s).2.self.captivePortalStart = s.self.captivePortalStart := by
  unfold connectSavedWifi
  simp only []
  split_ifs <;> simp

@[simp]
theorem connectSavedWifi_rfcName (polls : List Yield) (s : Sys) :
    (connectSavedWifi polls s).2.self.rfcName = s.self.rfcName := by
  unfold connectSavedWifi
  simp only []
  split_ifs <;> simp

@[simp]
theorem connectSavedWifi_reconnectRetries (polls : List Yield) (s : Sys) :
    (connectSavedWifi polls s).2.self.reconnectRetries = s.self.reconnectRetries := by
  unfold connectSavedWifi
  simp only []
  split_ifs <;> simp

@[simp]
theorem connectSavedWifi_reconnectLastRetry (polls : List Yield) (s : Sys) :
    (connectSavedWifi polls s).2.self.reconnectLastRetry = s.self.reconnectLastRetry := by
  unfold connectSavedWifi
  simp only []
  split_ifs <;> simp

theorem connectSavedWifi_time (polls : List Yield) (s : Sys) :
    s.hw.time ≤ (connectSavedWifi polls s).2.hw.time := by
  have hw : ∀ x : Sys, s.hw.time ≤ x.hw.time →
      s.hw.time ≤ (waitForConnectResult timeout polls x).2.hw.time :=
    fun x hx => le_trans hx (waitForConnectResult_time _ _ _)
  unfold connectSavedWifi
  simp only []
  split_ifs <;> simp <;> apply hw <;> simp

/-! ## What the three statements of `loop` change -/

/-- A credential swap makes no saved-credential attempt, asks for no restart, leaves the
retry counter and the retry timer alone, and does not turn the clock back. -/
theorem loopSwap_frame (e : SwapEnv) (s : Sys) :
    evCount isSavedAttempt (loopSwap e s).hw.trace = evCount isSavedAttempt s.hw.trace ∧
      evCount isReboot (loopSwap e s).hw.trace = evCount isReboot s.hw.trace ∧
      (loopSwap e s).self.reconnectRetries = s.self.reconnectRetries ∧
      (loopSwap e s).self.reconnectLastRetry = s.self.reconnectLastRetry ∧
      s.hw.time ≤ (loopSwap e s).hw.time := by
  unfold loopSwap
  split_ifs with hr
  · simp only [connectNewWifi]
    split_ifs <;>
      simp [delay, startCaptivePortal, stopCaptivePortal, isSavedAttempt, isReboot] <;> omega
  · simp

/-- The portal statement of `loop` only writes to the trace. -/
theorem loopPortal_frame (s : Sys) :
    (loopPortal s).self = s.self ∧ (loopPortal s).hw.time = s.hw.time ∧
      (loopPortal s).hw.status = s.hw.status ∧
      evCount isSavedAttempt (loopPortal s).hw.trace = evCount isSavedAttempt s.hw.trace := by
  unfold loopPortal
  simp only []
  split_ifs <;> simp [isSavedAttempt]

/-- The guard `restartDue` holds exactly when the portal statement of `loop` calls `reboot()`. -/
theorem loopPortal_restarts (s : Sys) :
    loopPortal s =
      if restartDue s = true then operations.reboot (s.emit Event.dnsProcessNextRequest)
      else if s.self.inCaptivePortal = true then s.emit Event.dnsProcessNextRequest
      else s := by
  have hm : millis (s.emit Event.dnsProcessNextRequest) = millis s := rfl
  unfold loopPortal restartDue
  simp only [hm]
  cases s.self.inCaptivePortal
  · simp
  · by_cases h : subMod U64 (millis s) s.self.captivePortalStart > 5 * 60 * 1000
    · simp [h]
    · simp [h]

/-- Outside captive mode the first statement of `loop` asks for no restart. -/
theorem restartDue_of_not_captive (s : Sys) (hc : s.self.inCaptivePortal = false) :
    restartDue s = false := by
  simp [restartDue, hc]

/-- The portal lifetime test of `loop` holds whenever more than 300000 ms and less than 2^32 ms
of true time have passed since the portal was entered at `t0`, whether or not the 32-bit
clock has wrapped in between. -/
theorem restartDue_of_elapsed (s : Sys) (t0 : Nat)
    (hcap : s.self.inCaptivePortal = true)
    (hstart : s.self.captivePortalStart = t0 % U32)
    (h0 : t0 ≤ s.hw.time) (hold : 300000 < s.hw.time - t0) (hlt : s.hw.time - t0 < U32) :
    restartDue s = true ∧
      5 * 60 * 1000 < subMod U64 (millis s) s.self.captivePortalStart := by
  have h : 5 * 60 * 1000 < subMod U64 (millis s) s.self.captivePortalStart := by
    rw [hstart]
    simp only [subMod, millis, U64, U32] at hlt ⊢
    omega
  exact ⟨by simp [restartDue, hcap, h], h⟩

/-- The link check asks for no restart. -/
theorem loopCheck_reboots (polls : List Yield) (s : Sys) :
    evCount isReboot (loopCheck polls s).hw.trace = evCount isReboot s.hw.trace := by
  unfold loopCheck
  simp only []
  split_ifs <;> simp [connectSavedWifi_reboots, startCaptivePortal, isReboot]

theorem loopPortal_retryInv (s : Sys) (h : retryInv s) : retryInv (loopPortal s) := by
  unfold loopPortal
  simp only []
  unfold retryInv at h ⊢
  split_ifs <;> simpa [isSavedAttempt, isAttemptEnd] using h

theorem loopSwap_retryInv (e : SwapEnv) (s : Sys)
    (h1 : e.pause.notify = false) (h2 : e.first.notify = false) (h3 : e.second.notify = false)
    (h : retryInv s) : retryInv (loopSwap e s) := by
  obtain ⟨hsp, hlast⟩ := h
  unfold loopSwap
  split_ifs with hr
  · simp only [connectNewWifi]
    unfold retryInv
    split_ifs <;>
      simp [delay, startCaptivePortal, stopCaptivePortal, isSavedAttempt, isAttemptEnd, h1, h2, h3,
        hsp] <;>
      intro u hu <;>
      obtain ⟨ha, hb, hc⟩ := hlast u hu <;>
      refine ⟨by omega, hb, hc⟩
  · exact ⟨hsp, hlast⟩

/-- With no callback during its wait, `connectSavedWifi` leaves the supervisor alone, and its
trace stays spaced exactly when the attempt starts one retry interval after the last end. -/
theorem connectSavedWifi_quiet (polls : List Yield) (s : Sys)
    (hq : ∀ y ∈ polls, y.notify = false) :
    (connectSavedWifi polls s).2.self = s.self ∧
      lastAttemptEnd (connectSavedWifi polls s).2.hw.trace = lastAttemptEnd s.hw.trace ∧
      (spaced (connectSavedWifi polls s).2.hw.trace ↔
        ((∀ u, lastAttemptEnd s.hw.trace = some u → u + connectionRetryInterval ≤ s.hw.time) ∧
          spaced s.hw.trace)) := by
  unfold connectSavedWifi
  simp only []
  split_ifs <;>
    simp [(waitForConnectResult_quiet _ _ _ hq).1, (waitForConnectResult_quiet _ _ _ hq).2,
      isSavedAttempt, isAttemptEnd]

/-- When the link check is due and the last attempt ended at `u` with the callback flag down,
at least one retry interval of true time has passed since `u`. -/
theorem due_gap (s : Sys) (hdue : checkDue s = true)
    (hlast : ∀ u, lastAttemptEnd s.hw.trace = some u →
      u ≤ s.hw.time ∧ s.self.checkConnection = false ∧ s.self.reconnectLastRetry = u % U32) :
    ∀ u, lastAttemptEnd s.hw.trace = some u → u + connectionRetryInterval ≤ s.hw.time := by
  intro u hu
  obtain ⟨ha, hb, hc⟩ := hlast u hu
  simp only [checkDue, hb, Bool.or_false, decide_eq_true_eq, hc, subMod, millis, U32,
    connectionRetryInterval] at hdue ⊢
  omega

theorem loopCheck_retryInv (polls : List Yield) (s : Sys)
    (hq : ∀ y ∈ polls, y.notify = false) (h : retryInv s) : retryInv (loopCheck polls s) := by
  obtain ⟨hsp, hlast⟩ := h
  unfold loopCheck
  simp only []
  split_ifs with hcap hdue hconn hret hfail hstable
  · -- a saved-credential attempt that failed
    obtain ⟨hself, hle, hspc⟩ := connectSavedWifi_quiet polls
      (Sys.emit (Event.log LogSite.retryNo)
        { s with self := { s.self with checkConnection := false } }) hq
    have hgap := due_gap s hdue hlast
    refine ⟨?_, ?_⟩
    · simp only [emit_trace, spaced_cons]
      refine ⟨by simp [isSavedAttempt], hspc.mpr ⟨?_, ?_⟩⟩
      · simpa [isAttemptEnd] using hgap
      · simpa [isSavedAttempt] using hsp
    · intro u hu
      simp [isAttemptEnd] at hu
      simp [hself, millis, ← hu]
  · -- a saved-credential attempt that succeeded
    obtain ⟨hself, hle, hspc⟩ := connectSavedWifi_quiet polls
      (Sys.emit (Event.log LogSite.retryNo)
        { s with self := { s.self with checkConnection := false } }) hq
    have hgap := due_gap s hdue hlast
    refine ⟨?_, ?_⟩
    · simp only [emit_trace, spaced_cons]
      refine ⟨by simp [isSavedAttempt], hspc.mpr ⟨?_, ?_⟩⟩
      · simpa [isAttemptEnd] using hgap
      · simpa [isSavedAttempt] using hsp
    · intro u hu
      simp [isAttemptEnd] at hu
      simp [hself, millis, ← hu]
  · -- retries used up: the portal opens
    refine ⟨by simpa [startCaptivePortal, isSavedAttempt, isAttemptEnd] using hsp, ?_⟩
    intro u hu
    simp [startCaptivePortal, isSavedAttempt, isAttemptEnd] at hu ⊢
    obtain ⟨ha, -, hc⟩ := hlast u hu
    exact ⟨ha, hc⟩
  · -- link up for the interval: the counter is cleared
    refine ⟨by simpa [isSavedAttempt, isAttemptEnd] using hsp, ?_⟩
    intro u hu
    simp [isSavedAttempt, isAttemptEnd] at hu ⊢
    obtain ⟨ha, -, hc⟩ := hlast u hu
    exact ⟨ha, hc⟩
  · refine ⟨hsp, ?_⟩
    intro u hu
    obtain ⟨ha, -, hc⟩ := hlast u hu
    exact ⟨ha, rfl, hc⟩
  · exact ⟨hsp, hlast⟩
  · exact ⟨hsp, hlast⟩

/-- The predicate `spaced` is what `spacedCheck` computes. -/
theorem spaced_iff_spacedCheck (tr : List (Nat × Event)) :
    spaced tr ↔ spacedCheck tr = true := by
  induction tr with
  | nil => simp [spaced, spacedCheck]
  | cons x tr ih =>
    unfold spaced spacedCheck
    rw [ih]
    cases lastAttemptEnd tr <;> cases isSavedAttempt x.2 <;> simp

/-- A call of `loop` during which no callback fires keeps the retry invariant. -/
theorem loop_retryInv (e : LoopEnv) (s : Sys) (hq : quietEnv e = true) (h : retryInv s) :
    retryInv (loop e s) := by
  simp only [quietEnv, Bool.and_eq_true, Bool.not_eq_true', List.all_eq_true] at hq
  obtain ⟨⟨⟨h1, h2⟩, h3⟩, h4⟩ := hq
  unfold loop
  split_ifs
  · exact loopPortal_retryInv _ h
  · exact loopCheck_retryInv _ _ h4 (loopSwap_retryInv _ _ h1 h2 h3 (loopPortal_retryInv _ h))

/-- A run of quiet calls of `loop` keeps the retry invariant. -/
theorem exec_retryInv (run : List Step) (s : Sys)
    (hq : ∀ st ∈ run, st.quietTick = true) (h : retryInv s) : retryInv (exec run s) := by
  induction run generalizing s with
  | nil => exact h
  | cons st rest ih =>
    have hst : st.quietTick = true := hq st (List.mem_cons_self _ _)
    refine ih _ (fun x hx => hq x (List.mem_cons_of_mem _ hx)) ?_
    cases st with
    | tick e => exact loop_retryInv e s hst h
    | idle dt st =>
      obtain ⟨hsp, hlast⟩ := h
      refine ⟨hsp, ?_⟩
      intro u hu
      obtain ⟨ha, hb, hc⟩ := hlast u hu
      exact ⟨Nat.le_add_right_of_le ha, hb, hc⟩
    | disconnected => simp [Step.quietTick] at hst
    | newWifi a b => simp [Step.quietTick] at hst
    | forget => simp [Step.quietTick] at hst
    | begin h c polls => simp [Step.quietTick] at hst

/-- The run `twoAttempts` makes two saved-credential attempts, the first from 5000 ms to
65000 ms and the second starting at 95000 ms. -/
theorem twoAttempts_trace :
    evCount isSavedAttempt (exec twoAttempts (onDisconnect freshDown)).hw.trace = 2 ∧
      (65000, Event.log LogSite.savedFailed) ∈ (exec twoAttempts (onDisconnect freshDown)).hw.trace ∧
      (95000, Event.log LogSite.savedRfcName)
        ∈ (exec twoAttempts (onDisconnect freshDown)).hw.trace := by
  decide

/-! ## Where the wait stops -/

@[simp]
theorem yields_nil (s : Sys) : yields [] s = s := rfl

@[simp]
theorem yields_cons (p : Yield) (ps : List Yield) (s : Sys) :
    yields (p :: ps) s = yields ps (yield p s) := rfl

@[simp]
theorem elapsed_nil : elapsed [] = 0 := rfl

@[simp]
theorem elapsed_cons (p : Yield) (ps : List Yield) : elapsed (p :: ps) = p.dt + elapsed ps := by
  simp [elapsed]

theorem definitive_iff (st : wl_status_t) :
    definitive st = true ↔ (st ≠ WL_DISCONNECTED ∧ st ≠ WL_NO_SSID_AVAIL) := by
  simp [definitive]

theorem code_ne_timeout (st : wl_status_t) : st.code ≠ -1 := by
  cases st <;> simp [wl_status_t.code]

/-- The polling loop stops at the first yield after which the status is definitive, when the
timer has not expired before that yield. -/
theorem waitLoop_stops (T start : Nat) (pre : List Yield) (y : Yield) (post : List Yield)
    (s : Sys) (hstart : start ≤ s.hw.time)
    (hpre : ∀ p ∈ pre, definitive p.status = false)
    (hy : definitive y.status = true)
    (htime : s.hw.time - start + elapsed pre < T) :
    waitLoop T start (pre ++ y :: post) s = (y.status.code, yield y (yields pre s)) := by
  induction pre generalizing s with
  | nil =>
    have h1 : ¬ T ≤ s.hw.time - start := by
      simp at htime
      omega
    have h2 := (definitive_iff y.status).mp hy
    simp [waitLoop, h1, h2]
  | cons p pre ih =>
    have h1 : ¬ T ≤ s.hw.time - start := by
      simp at htime
      omega
    have hp : definitive p.status = false := hpre p (List.mem_cons_self _ _)
    have hp2 : ¬ (p.status ≠ WL_DISCONNECTED ∧ p.status ≠ WL_NO_SSID_AVAIL) := by
      intro h
      rw [(definitive_iff p.status).mpr h] at hp
      exact Bool.noConfusion hp
    have hrec := ih (yield p s) (by simp; omega)
      (fun q hq => hpre q (List.mem_cons_of_mem _ hq))
      (by simp at htime ⊢; omega)
    simp only [List.cons_append, waitLoop, h1, if_false, status_eq, yield_status, hp2]
    simpa using hrec

/-- When the polling loop returns the timeout result, no yield that started before the timer
expired was followed by a definitive status. -/
theorem waitLoop_timeout (T start : Nat) (polls : List Yield) (s : Sys)
    (hstart : start ≤ s.hw.time)
    (hres : (waitLoop T start polls s).1 = -1) :
    ∀ pre y post, polls = pre ++ y :: post → s.hw.time - start + elapsed pre < T →
      definitive y.status = false := by
  induction polls generalizing s with
  | nil =>
    intro pre y post h
    simp at h
  | cons p ps ih =>
    intro pre y post hsplit htime
    have h1 : ¬ T ≤ s.hw.time - start := by omega
    by_cases hp : p.status ≠ WL_DISCONNECTED ∧ p.status ≠ WL_NO_SSID_AVAIL
    · simp [waitLoop, h1, hp, code_ne_timeout] at hres
    · simp only [waitLoop, h1, if_false, status_eq, yield_status, hp] at hres
      cases pre with
      | nil =>
        simp at hsplit
        rw [← hsplit.1]
        cases hd : definitive p.status
        · rfl
        · exact absurd ((definitive_iff _).mp hd) hp
      | cons q pre =>
        simp at hsplit
        obtain ⟨hq, hps⟩ := hsplit
        subst hq
        refine ih (yield p s) (by simp; omega) hres pre y post hps ?_
        simp at htime ⊢
        omega

/-! ## What `begin` changes -/

theorem code_injective (a b : wl_status_t) (h : a.code = b.code) : a = b := by
  cases a <;> cases b <;> simp [wl_status_t.code] at h <;> rfl

/-- A result of the polling loop other than the timeout result is the status the radio
reports when the loop returns. -/
theorem waitLoop_result (T start : Nat) (polls : List Yield) (s : Sys) :
    (waitLoop T start polls s).1 = -1 ∨
      (waitLoop T start polls s).1 = (waitLoop T start polls s).2.hw.status.code := by
  induction polls generalizing s with
  | nil =>
    simp only [waitLoop]
    split_ifs <;> simp
  | cons p ps ih =>
    simp only [waitLoop]
    split_ifs
    · simp
    · simp
    · exact ih _

/-- When the own wait returns `WL_CONNECTED` the link is connected. -/
theorem waitForConnectResult_connected (T : Nat) (polls : List Yield) (x : Sys)
    (hx : (waitForConnectResult T polls x).1 = WL_CONNECTED.code) :
    (waitForConnectResult T polls x).2.hw.status = WL_CONNECTED := by
  unfold waitForConnectResult at hx ⊢
  split_ifs at hx ⊢ with hm
  · simp [wl_status_t.code] at hx
  · rcases waitLoop_result T x.hw.time polls x with h1 | h1
    · rw [h1] at hx
      simp [wl_status_t.code] at hx
    · rw [h1] at hx
      exact code_injective _ _ hx

/-- When `connectSavedWifi` reports success the link is connected. -/
theorem connectSavedWifi_true (polls : List Yield) (s : Sys)
    (h : (connectSavedWifi polls s).1 = true) :
    (connectSavedWifi polls s).2.hw.status = WL_CONNECTED := by
  unfold connectSavedWifi at h ⊢
  simp only [] at h ⊢
  split_ifs at h ⊢
  all_goals first
    | (simp at h; done)
    | (simp at *; apply waitForConnectResult_connected; assumption)

@[simp]
theorem beginSetup_dnsServer (hostName : String) (chipId : Nat) (s : Sys) :
    (beginSetup hostName chipId s).self.dnsServer = s.self.dnsServer := rfl

@[simp]
theorem beginSetup_ssid (hostName : String) (chipId : Nat) (s : Sys) :
    (beginSetup hostName chipId s).self.ssid = s.self.ssid := rfl

@[simp]
theorem beginSetup_pass (hostName : String) (chipId : Nat) (s : Sys) :
    (beginSetup hostName chipId s).self.pass = s.self.pass := rfl

@[simp]
theorem beginSetup_reconnect (hostName : String) (chipId : Nat) (s : Sys) :
    (beginSetup hostName chipId s).self.reconnect = s.self.reconnect := rfl

@[simp]
theorem beginSetup_inCaptivePortal (hostName : String) (chipId : Nat) (s : Sys) :
    (beginSetup hostName chipId s).self.inCaptivePortal = s.self.inCaptivePortal := rfl

@[simp]
theorem beginSetup_captivePortalStart (hostName : String) (chipId : Nat) (s : Sys) :
    (beginSetup hostName chipId s).self.captivePortalStart = s.self.captivePortalStart := rfl

@[simp]
theorem beginSetup_reconnectRetries (hostName : String) (chipId : Nat) (s : Sys) :
    (beginSetup hostName chipId s).self.reconnectRetries = s.self.reconnectRetries := rfl

@[simp]
theorem beginSetup_reconnectLastRetry (hostName : String) (chipId : Nat) (s : Sys) :
    (beginSetup hostName chipId s).self.reconnectLastRetry = s.self.reconnectLastRetry := rfl

@[simp]
theorem beginSetup_checkConnection (hostName : String) (chipId : Nat) (s : Sys) :
    (beginSetup hostName chipId s).self.checkConnection = s.self.checkConnection := rfl

@[simp]
theorem beginSetup_count (p : Event → Bool) (hostName : String) (chipId : Nat) (s : Sys) :
    evCount p (beginSetup hostName chipId s).hw.trace =
      evCount p s.hw.trace + (if p (Event.log LogSite.beginRfcName) = true then 1 else 0)
        + (if p (Event.persistent false) = true then 1 else 0)
        + (if p Event.onStationModeDisconnected = true then 1 else 0)
        + (if p (Event.setAutoReconnect true) = true then 1 else 0) := by
  unfold beginSetup
  simp only [LOG_eq, persistent_eq, setAutoReconnect_eq, emit_trace, evCount_cons]

/-- At `stationDown` with `connectPolls` the attempt of `begin` succeeds, and the configured
name "clock" is sanitized to "cloc". -/
theorem begin_connects_sample :
    (connectSavedWifi connectPolls (beginSetup "clock" 11256099 stationDown)).1 = true ∧
      (begin "clock" 11256099 connectPolls stationDown).self.rfcName = "cloc" := by
  decide

/-! ## What the sanitizer computes -/

theorem substring_zero (str : List Char) (i : Nat) : substring str 0 i = str.take i := by
  unfold substring
  simp only [Nat.not_lt_zero, if_false, Nat.sub_zero, List.drop_zero]
  split_ifs with h1 h2
  · have : str = [] := List.eq_nil_of_length_eq_zero (by omega)
    simp [this]
  · rw [List.take_of_length_le (le_of_lt h2), List.take_of_length_le le_rfl]
  · rfl

/-- One round of the `for` loop of `getRFC952Hostname`. -/
theorem collect_cons (m : Nat) (c : Char) (cs acc : List Char) :
    collect m (c :: cs) acc =
      if (if accepted c = true then acc ++ [c] else acc).length ≥ m then
        (if accepted c = true then acc ++ [c] else acc)
      else collect m cs (if accepted c = true then acc ++ [c] else acc) := rfl

theorem collect_length (m : Nat) (cs acc : List Char) (h : acc.length < m) :
    (collect m cs acc).length ≤ m := by
  induction cs generalizing acc with
  | nil => exact le_of_lt h
  | cons c cs ih =>
    rw [collect_cons]
    have hstep : (if accepted c = true then acc ++ [c] else acc).length ≤ acc.length + 1 := by
      split_ifs <;> simp
    generalize (if accepted c = true then acc ++ [c] else acc) = acc2 at hstep ⊢
    split_ifs with h2
    · omega
    · exact ih _ (by omega)

theorem collect_mem (P : Char → Prop) (m : Nat) (cs acc : List Char)
    (hacc : ∀ c ∈ acc, P c) (hcs : ∀ c ∈ cs, accepted c = true → P c) :
    ∀ c ∈ collect m cs acc, P c := by
  induction cs generalizing acc with
  | nil => exact hacc
  | cons c cs ih =>
    rw [collect_cons]
    have hrest : ∀ d ∈ cs, accepted d = true → P d :=
      fun d hd => hcs d (List.mem_cons_of_mem _ hd)
    have hstep : ∀ d ∈ (if accepted c = true then acc ++ [c] else acc), P d := by
      split_ifs with hc
      · intro d hd
        rcases List.mem_append.mp hd with h | h
        · exact hacc d h
        · rw [List.mem_singleton.mp h]
          exact hcs c (List.mem_cons_self _ _) hc
      · exact hacc
    generalize (if accepted c = true then acc ++ [c] else acc) = acc2 at hstep ⊢
    split_ifs
    · exact hstep
    · exact ih _ hstep hrest

theorem hostnameChars_eq (name : List Char) :
    getRFC952HostnameChars name = (collect 24 name []).take
      (stripIndex (collect 24 name []) (((collect 24 name []).length + (SIZE_W - 1)) % SIZE_W)) := by
  unfold getRFC952HostnameChars
  simp only [substring_zero]

theorem charAt_mem (str : List Char) (i : Nat) (h : i < str.length) : charAt str i ∈ str := by
  unfold charAt
  simp only [h, dif_pos]
  exact List.get_mem _ _ _

theorem stripIndex_hyphens (str : List Char) (hall : ∀ c ∈ str, c = '-') (i : Nat)
    (hi : i < str.length) : stripIndex str i = 0 := by
  induction i with
  | zero => rfl
  | succ i ih =>
    have hc : charAt str (i + 1) = '-' := hall _ (charAt_mem str (i + 1) hi)
    simp only [stripIndex, hc, if_true]
    exact ih (by omega)

theorem collect_eq (m : Nat) (cs acc : List Char) (h : acc.length < m) :
    collect m cs acc = acc ++ (cs.filter accepted).take (m - acc.length) := by
  induction cs generalizing acc with
  | nil => simp [collect]
  | cons c cs ih =>
    rw [collect_cons]
    by_cases hc : accepted c = true
    · simp only [if_pos hc, List.filter_cons_of_pos hc]
      have hm : m - acc.length = (m - (acc.length + 1)) + 1 := by omega
      split_ifs with h2
      · simp only [List.length_append, List.length_singleton] at h2
        have : m - acc.length = 1 := by omega
        simp [this]
      · simp only [List.length_append, List.length_singleton] at h2
        rw [ih _ (by simp; omega), hm, List.take_succ_cons]
        simp
    · simp only [if_neg hc]
      have hf : (c :: cs).filter accepted = cs.filter accepted := by
        simp [List.filter_cons, hc]
      rw [hf]
      split_ifs with h2
      · omega
      · exact ih _ h

theorem dropTrailingHyphens_snoc (l : List Char) (c : Char) :
    dropTrailingHyphens (l ++ [c]) = if c = '-' then dropTrailingHyphens l else l ++ [c] := by
  unfold dropTrailingHyphens
  by_cases hc : c = '-'
  · simp [hc, List.dropWhile_cons]
  · simp [hc, List.dropWhile_cons]

theorem charAt_append (l r : List Char) (k : Nat) (h : k < l.length) :
    charAt (l ++ r) k = charAt l k := by
  unfold charAt
  have h2 : k < (l ++ r).length := by simp; omega
  simp only [h, h2, dif_pos]
  simp [List.getElem_append_left h]

theorem stripIndex_append (l r : List Char) (k : Nat) (h : k < l.length) :
    stripIndex (l ++ r) k = stripIndex l k := by
  induction k with
  | zero => rfl
  | succ k ih =>
    simp only [stripIndex, charAt_append l r (k + 1) h]
    split_ifs
    · exact ih (by omega)
    · rfl

theorem stripIndex_le (l : List Char) (k : Nat) : stripIndex l k ≤ k := by
  induction k with
  | zero => exact le_rfl
  | succ k ih =>
    simp only [stripIndex]
    split_ifs
    · omega
    · exact le_rfl

theorem stripIndex_take (l : List Char) :
    l.take (stripIndex l (l.length - 1)) = (dropTrailingHyphens l).dropLast := by
  induction l using List.reverseRecOn with
  | nil => rfl
  | append_singleton l c ih =>
    rw [dropTrailingHyphens_snoc]
    simp only [List.length_append, List.length_singleton, Nat.add_sub_cancel]
    cases hl : l.length with
    | zero =>
      have : l = [] := List.eq_nil_of_length_eq_zero hl
      subst this
      by_cases hc : c = '-' <;> simp [stripIndex, hc, dropTrailingHyphens]
    | succ k =>
      have hk : k < l.length := by omega
      have hcA : charAt (l ++ [c]) (k + 1) = c := by
        unfold charAt
        have h2 : k + 1 < (l ++ [c]).length := by simp [hl]
        simp only [h2, dif_pos]
        simp [List.getElem_append_right, hl]
      simp only [stripIndex, hcA]
      by_cases hc : c = '-'
      · simp only [hc, if_true]
        rw [stripIndex_append l _ k hk]
        have hle := stripIndex_le l k
        rw [List.take_append_of_le_length (by omega)]
        have hk2 : k = l.length - 1 := by omega
        rw [hk2]
        exact ih
      · simp only [hc, if_false]
        rw [← hl]
        simp

/-- What `getRFC952Hostname` returns: the first 24 accepted characters of the name without
the hyphens at their end and without the last character that is left. -/
theorem getRFC952Hostname_eq (name : String) :
    getRFC952Hostname name =
      String.mk (dropTrailingHyphens ((name.data.filter accepted).take 24)).dropLast := by
  have hcol : collect 24 name.data [] = (name.data.filter accepted).take 24 := by
    rw [collect_eq 24 name.data [] (by decide)]
    rfl
  unfold getRFC952Hostname
  rw [hostnameChars_eq, hcol]
  have hle : ((name.data.filter accepted).take 24).length ≤ 24 := by
    rw [List.length_take]
    exact min_le_left _ _
  generalize (name.data.filter accepted).take 24 = acc at hle ⊢
  apply congrArg String.mk
  cases hacc : acc with
  | nil => simp [dropTrailingHyphens]
  | cons c rest =>
    have hlen : 0 < acc.length := by simp [hacc]
    have hidx : (acc.length + (SIZE_W - 1)) % SIZE_W = acc.length - 1 := by
      unfold SIZE_W
      omega
    rw [← hacc, hidx]
    exact stripIndex_take acc

/-! ## Clock tests and invariants of the reachable states -/

/-- The retry interval test is safe against wraparound: the 32-bit difference of the two clock
readings is the true elapsed time mod 2^32. -/
theorem retryTest_wrap_safe (start now : Nat) (h : start ≤ now) :
    subMod U32 (now % U32) (start % U32) = elapsed32 start now := by
  simp only [subMod, elapsed32, U32]
  omega

/-- The portal lifetime test agrees with the true elapsed time as long as the 32-bit clock has
not wrapped since portal entry. -/
theorem portalTest_without_wrap (start now : Nat) (h : start ≤ now) (hnow : now < U32) :
    subMod U64 (now % U32) (start % U32) = elapsed32 start now := by
  simp only [subMod, elapsed32, U32, U64] at hnow ⊢
  omega

theorem loopCheck_retries_le (polls : List Yield) (s : Sys)
    (h : s.self.reconnectRetries ≤ maxConnectionRetries + 1) :
    (loopCheck polls s).self.reconnectRetries ≤ maxConnectionRetries + 1 := by
  unfold loopCheck
  simp only []
  unfold maxConnectionRetries at h ⊢
  split_ifs <;> simp [startCaptivePortal] <;> omega

theorem loopCheck_retries_stay (polls : List Yield) (s : Sys)
    (h : maxConnectionRetries < s.self.reconnectRetries) :
    (loopCheck polls s).self.reconnectRetries ≤ s.self.reconnectRetries := by
  unfold loopCheck
  simp only []
  unfold maxConnectionRetries at h ⊢
  split_ifs <;> simp [startCaptivePortal] <;> omega

theorem begin_retries (hostName : String) (chipId : Nat) (polls : List Yield) (s : Sys) :
    (begin hostName chipId polls s).self.reconnectRetries = s.self.reconnectRetries := by
  unfold begin
  simp only []
  split_ifs <;> simp [startCaptivePortal]

/-- No step raises the failure count once it is above the maximum, and no step raises it by
more than it takes to get one above the maximum. -/
theorem step_retries (st : Step) (s : Sys) :
    (s.self.reconnectRetries ≤ maxConnectionRetries + 1 →
        (st.apply s).self.reconnectRetries ≤ maxConnectionRetries + 1) ∧
      (maxConnectionRetries < s.self.reconnectRetries →
        (st.apply s).self.reconnectRetries ≤ s.self.reconnectRetries) := by
  cases st with
  | tick e =>
    have h1 := (loopSwap_frame e.swap (loopPortal s)).2.2.1
    rw [(loopPortal_frame s).1] at h1
    simp only [Step.apply, loop]
    split_ifs
    · rw [(loopPortal_frame s).1]
      exact ⟨fun h => h, fun _ => le_rfl⟩
    · refine ⟨fun h => loopCheck_retries_le _ _ (by rw [h1]; exact h), fun h => ?_⟩
      have := loopCheck_retries_stay e.saved (loopSwap e.swap (loopPortal s)) (by rw [h1]; exact h)
      rw [h1] at this
      exact this
  | idle dt st => exact ⟨fun h => h, fun _ => le_rfl⟩
  | disconnected => exact ⟨fun h => h, fun _ => le_rfl⟩
  | newWifi a b => exact ⟨fun h => h, fun _ => le_rfl⟩
  | forget => exact ⟨fun h => h, fun _ => le_rfl⟩
  | begin hn c polls =>
    simp only [Step.apply, begin_retries]
    exact ⟨fun h => h, fun _ => le_rfl⟩

theorem exec_retries (run : List Step) (s : Sys)
    (h : s.self.reconnectRetries ≤ maxConnectionRetries + 1) :
    (exec run s).self.reconnectRetries ≤ maxConnectionRetries + 1 := by
  induction run generalizing s with
  | nil => exact h
  | cons st rest ih => exact ih _ ((step_retries st s).1 h)

set_option maxRecDepth 100000 in
theorem bootAndRetries_sample :
    (exec bootAndRetries powerOn).self.reconnectRetries = 11 ∧
      (exec bootAndRetries powerOn).self.inCaptivePortal = true ∧
      (exec bootAndRetries powerOn).self.dnsServer = DnsPtr.live := by
  decide

theorem startCaptivePortal_dnsLive (s : Sys) : dnsLive (startCaptivePortal s) := by
  intro _
  simp [startCaptivePortal]

theorem connectNewWifi_dnsLive (a b : String) (e : SwapEnv) (s : Sys) (h : dnsLive s) :
    dnsLive (connectNewWifi a b e s) := by
  unfold dnsLive at h ⊢
  simp only [connectNewWifi]
  split_ifs <;>
    first
      | (simp [delay, startCaptivePortal, stopCaptivePortal]; done)
      | simpa [delay, startCaptivePortal, stopCaptivePortal] using h

theorem loopSwap_dnsLive (e : SwapEnv) (s : Sys) (h : dnsLive s) : dnsLive (loopSwap e s) := by
  unfold loopSwap
  split_ifs
  · exact connectNewWifi_dnsLive _ _ _ _ h
  · exact h

theorem loopCheck_dnsLive (polls : List Yield) (s : Sys) (h : dnsLive s) :
    dnsLive (loopCheck polls s) := by
  unfold dnsLive at h ⊢
  unfold loopCheck
  simp only []
  split_ifs <;>
    first
      | (simp [startCaptivePortal]; done)
      | simpa [startCaptivePortal] using h

theorem begin_dnsLive (hostName : String) (chipId : Nat) (polls : List Yield) (s : Sys)
    (h : dnsLive s) : dnsLive (begin hostName chipId polls s) := by
  unfold begin
  simp only []
  split_ifs
  · exact startCaptivePortal_dnsLive _
  · unfold dnsLive at h ⊢
    simpa using h

theorem step_dnsLive (st : Step) (s : Sys) (h : dnsLive s) : dnsLive (st.apply s) := by
  cases st with
  | tick e =>
    have hp : dnsLive (loopPortal s) := by
      unfold dnsLive at h ⊢
      rw [(loopPortal_frame s).1]
      exact h
    simp only [Step.apply, loop]
    split_ifs
    · exact hp
    · exact loopCheck_dnsLive _ _ (loopSwap_dnsLive _ _ hp)
  | idle dt st => exact h
  | disconnected => exact h
  | newWifi a b => exact h
  | forget => exact startCaptivePortal_dnsLive _
  | begin hn c polls => exact begin_dnsLive _ _ _ _ h

theorem exec_dnsLive (run : List Step) (s : Sys) (h : dnsLive s) : dnsLive (exec run s) := by
  induction run generalizing s with
  | nil => exact h
  | cons st rest ih => exact ih _ (step_dnsLive st s h)

theorem connectSavedWifi_pumps (polls : List Yield) (s : Sys) :
    evCount isPump (connectSavedWifi polls s).2.hw.trace = evCount isPump s.hw.trace := by
  unfold connectSavedWifi
  simp only []
  split_ifs <;> simp [waitForConnectResult_count isPump rfl, isPump]

/-- Only the portal statement of `loop` uses the DNS responder. -/
theorem loop_pumps_only_in_portal (e : LoopEnv) (s : Sys) (hc : s.self.inCaptivePortal = false) :
    evCount isPump (loop e s).hw.trace = evCount isPump s.hw.trace := by
  have h1 : loopPortal s = s := by simp [loopPortal, hc]
  have h2 : evCount isPump (loopSwap e.swap s).hw.trace = evCount isPump s.hw.trace := by
    unfold loopSwap
    split_ifs
    · simp only [connectNewWifi]
      split_ifs <;> simp [delay, startCaptivePortal, stopCaptivePortal, isPump]
    · rfl
  have h3 : ∀ x : Sys, evCount isPump (loopCheck e.saved x).hw.trace
      = evCount isPump x.hw.trace := by
    intro x
    unfold loopCheck
    simp only []
    split_ifs <;> simp [connectSavedWifi_pumps, startCaptivePortal, isPump]
  unfold loop
  rw [restartDue_of_not_captive s hc, h1]
  simp only [Bool.false_eq_true, if_false]
  rw [h3, h2]

/-! ## The retry policy and the credential swap -/

/-- C1: outside captive mode, with no pending swap and more than 10 failures, a call of `loop`
in which the link check is due (retry interval elapsed on the 32-bit clock, or callback flag
raised) and the link is down ends in captive mode and makes no saved-credential attempt. -/
theorem C1_retries_used_up_opens_portal (e : LoopEnv) (s : Sys)
    (hcap : s.self.inCaptivePortal = false) (hsw : s.self.reconnect = false)
    (hret : maxConnectionRetries < s.self.reconnectRetries)
    (hdue : checkDue s = true)
    (hlink : WiFi.isConnected s = false) :
    (loop e s).self.inCaptivePortal = true ∧
      evCount isSavedAttempt (loop e s).hw.trace = evCount isSavedAttempt s.hw.trace := by
  simp only [isConnected_eq, decide_eq_false_iff_not] at hlink
  simp [loop, restartDue, loopPortal, loopSwap, loopCheck, hcap, hsw, hdue, hlink,
    Nat.not_le.mpr hret, startCaptivePortal, isSavedAttempt]

/-- C1 at `exhaustedState` (11 failures, flag raised, link down). -/
theorem C1_retries_used_up_opens_portal_witness :
    (exhaustedState.self.inCaptivePortal = false ∧ exhaustedState.self.reconnect = false ∧
      maxConnectionRetries < exhaustedState.self.reconnectRetries ∧
      checkDue exhaustedState = true ∧ WiFi.isConnected exhaustedState = false) ∧
    ((loop noNetworkEnv exhaustedState).self.inCaptivePortal = true ∧
      evCount isSavedAttempt (loop noNetworkEnv exhaustedState).hw.trace
        = evCount isSavedAttempt exhaustedState.hw.trace) :=
  ⟨by decide, C1_retries_used_up_opens_portal noNetworkEnv exhaustedState (by decide) (by decide)
    (by decide) (by decide) (by decide)⟩

/-- C2: with at most 10 failures, a call of `loop` that reaches the link check (the portal
statement does not restart the device, which is so for every state outside captive mode, and
the state after the portal and swap statements is outside captive mode), finds it due and
finds the link down makes exactly one saved-credential attempt, adds exactly 1 to the failure
count whatever the attempt returns, and sets the retry timer to the 32-bit clock value at the
end of the call, which is the time stamp of the log line written right after the attempt
returned. It holds whether or not a swap was pending and whether or not the call started in
captive mode. -/
theorem C2_retry_counts_and_restarts_timer (e : LoopEnv) (s : Sys)
    (hret : s.self.reconnectRetries ≤ maxConnectionRetries)
    (hlive : restartDue s = false)
    (hrun : (loopSwap e.swap (loopPortal s)).self.inCaptivePortal = false)
    (hdue : checkDue (loopSwap e.swap (loopPortal s)) = true)
    (hlink : WiFi.isConnected (loopSwap e.swap (loopPortal s)) = false) :
    evCount isSavedAttempt (loop e s).hw.trace = evCount isSavedAttempt s.hw.trace + 1 ∧
      (loop e s).self.reconnectRetries = s.self.reconnectRetries + 1 ∧
      (loop e s).self.reconnectLastRetry = millis (loop e s) ∧
      (∃ site, (site = LogSite.savedFailed ∨ site = LogSite.savedSucceeded) ∧
        (loop e s).hw.trace.head? = some ((loop e s).hw.time, Event.log site)) := by
  obtain ⟨ha, -, hr, -, -⟩ := loopSwap_frame e.swap (loopPortal s)
  obtain ⟨hps, -, -, hpa⟩ := loopPortal_frame s
  rw [hps] at hr
  rw [hpa] at ha
  simp only [isConnected_eq, decide_eq_false_iff_not] at hlink
  have hret2 : s.self.reconnectRetries + 1 < 256 := by
    unfold maxConnectionRetries at hret
    omega
  unfold loop loopCheck
  simp only [hlive, Bool.false_eq_true, if_false]
  simp only [hrun, hdue, isConnected_eq, hlink, hr, hret]
  simp [connectSavedWifi_attempts, isSavedAttempt, ha, hret2, millis]
  split_ifs <;> simp [connectSavedWifi_attempts, isSavedAttempt, ha, hret2]

/-- C2 at `retryState` (3 failures, timer 39 s old, link down): the attempt times out one
minute later. -/
theorem C2_retry_counts_and_restarts_timer_witness :
    (retryState.self.reconnectRetries ≤ maxConnectionRetries ∧
      restartDue retryState = false ∧
      (loopSwap noNetworkEnv.swap (loopPortal retryState)).self.inCaptivePortal = false ∧
      checkDue (loopSwap noNetworkEnv.swap (loopPortal retryState)) = true ∧
      WiFi.isConnected (loopSwap noNetworkEnv.swap (loopPortal retryState)) = false) ∧
    (evCount isSavedAttempt (loop noNetworkEnv retryState).hw.trace
        = evCount isSavedAttempt retryState.hw.trace + 1 ∧
      (loop noNetworkEnv retryState).self.reconnectRetries
        = retryState.self.reconnectRetries + 1 ∧
      (loop noNetworkEnv retryState).self.reconnectLastRetry
        = millis (loop noNetworkEnv retryState) ∧
      (∃ site, (site = LogSite.savedFailed ∨ site = LogSite.savedSucceeded) ∧
        (loop noNetworkEnv retryState).hw.trace.head?
          = some ((loop noNetworkEnv retryState).hw.time, Event.log site))) :=
  ⟨by decide, C2_retry_counts_and_restarts_timer noNetworkEnv retryState (by decide) (by decide)
    (by decide) (by decide) (by decide)⟩

/-- C3: outside captive mode, with the radio configured for network A (name and secret) and a
candidate of another name whose attempt does not report connected, `connectNewWifi` issues,
after the connect for the candidate, a rollback connect with exactly the name and secret of
A; if the rollback reports connected the call ends outside captive mode with the link
connected and the radio configured for A, otherwise it ends in captive mode. -/
theorem C3_failed_swap_rolls_back (aName aSecret newSSID newPass : String) (e : SwapEnv)
    (s : Sys)
    (hcap : s.self.inCaptivePortal = false)
    (hname : WiFi.SSID s = aName) (hpsk : WiFi.psk s = aSecret)
    (hdiff : newSSID ≠ aName)
    (hfail : e.first.result ≠ some WL_CONNECTED) :
    connectLog (connectNewWifi newSSID newPass e s).hw.trace
        = Event.beginWith aName aSecret :: Event.beginWith newSSID newPass
            :: connectLog s.hw.trace ∧
      (e.second.result = some WL_CONNECTED →
        (connectNewWifi newSSID newPass e s).self.inCaptivePortal = false ∧
        WiFi.status (connectNewWifi newSSID newPass e s) = WL_CONNECTED ∧
        WiFi.SSID (connectNewWifi newSSID newPass e s) = aName ∧
        WiFi.psk (connectNewWifi newSSID newPass e s) = aSecret) ∧
      (e.second.result ≠ some WL_CONNECTED →
        (connectNewWifi newSSID newPass e s).self.inCaptivePortal = true) := by
  simp only [status_eq, SSID_eq, psk_eq] at hname hpsk ⊢
  have h1 : (s.hw.status == WL_CONNECTED && s.hw.staSSID == newSSID) = false := by
    simp [hname, Ne.symm hdiff]
  by_cases h2 : e.second.result = some WL_CONNECTED
  · simp [connectNewWifi, h1, hfail, delay, hcap, h2, isConnect]
    simp [hname, hpsk]
  · simp [connectNewWifi, h1, hfail, delay, hcap, h2, startCaptivePortal, isConnect]
    simp [hname, hpsk]

/-- C3 at `homeState` (connected to "home"), candidate "cafe" rejected, rollback connects. -/
theorem C3_failed_swap_rolls_back_witness :
    (homeState.self.inCaptivePortal = false ∧ WiFi.SSID homeState = "home" ∧ WiFi.psk homeState = "pw" ∧
      "cafe" ≠ "home" ∧ rollbackOkEnv.first.result ≠ some WL_CONNECTED) ∧
    (connectLog (connectNewWifi "cafe" "secret" rollbackOkEnv homeState).hw.trace
        = Event.beginWith "home" "pw" :: Event.beginWith "cafe" "secret"
            :: connectLog homeState.hw.trace ∧
      (rollbackOkEnv.second.result = some WL_CONNECTED →
        (connectNewWifi "cafe" "secret" rollbackOkEnv homeState).self.inCaptivePortal = false ∧
        WiFi.status (connectNewWifi "cafe" "secret" rollbackOkEnv homeState) = WL_CONNECTED ∧
        WiFi.SSID (connectNewWifi "cafe" "secret" rollbackOkEnv homeState) = "home" ∧
        WiFi.psk (connectNewWifi "cafe" "secret" rollbackOkEnv homeState) = "pw") ∧
      (rollbackOkEnv.second.result ≠ some WL_CONNECTED →
        (connectNewWifi "cafe" "secret" rollbackOkEnv homeState).self.inCaptivePortal = true)) :=
  ⟨by decide, C3_failed_swap_rolls_back "home" "pw" "cafe" "secret" rollbackOkEnv homeState
    (by decide) (by decide) (by decide) (by decide) (by decide)⟩

/-- C4: in captive mode, when `connectNewWifi` tries the candidate (the link is not already
connected under the candidate name) and the attempt does not report connected, the only
connect command issued is the one for the candidate (no rollback), and the supervisor stays
in captive mode with the same portal session: flag, entry time stamp and DNS responder are
unchanged. -/
theorem C4_failed_swap_in_portal_stays (newSSID newPass : String) (e : SwapEnv) (s : Sys)
    (hcap : s.self.inCaptivePortal = true)
    (hneed : ¬ (WiFi.status s = WL_CONNECTED ∧ WiFi.SSID s = newSSID))
    (hfail : e.first.result ≠ some WL_CONNECTED) :
    connectLog (connectNewWifi newSSID newPass e s).hw.trace
        = Event.beginWith newSSID newPass :: connectLog s.hw.trace ∧
      (connectNewWifi newSSID newPass e s).self.inCaptivePortal = true ∧
      (connectNewWifi newSSID newPass e s).self.captivePortalStart = s.self.captivePortalStart ∧
      (connectNewWifi newSSID newPass e s).self.dnsServer = s.self.dnsServer := by
  have h1 : (s.hw.status == WL_CONNECTED && s.hw.staSSID == newSSID) = false := by
    simp at hneed
    simpa using hneed
  simp [connectNewWifi, h1, hfail, delay, hcap, isConnect]

/-- C4 at `portalState` (portal open since 50000 ms), candidate "cafe" rejected. -/
theorem C4_failed_swap_in_portal_stays_witness :
    (portalState.self.inCaptivePortal = true ∧
      ¬ (WiFi.status portalState = WL_CONNECTED ∧ WiFi.SSID portalState = "cafe") ∧
      rollbackOkEnv.first.result ≠ some WL_CONNECTED) ∧
    (connectLog (connectNewWifi "cafe" "secret" rollbackOkEnv portalState).hw.trace
        = Event.beginWith "cafe" "secret" :: connectLog portalState.hw.trace ∧
      (connectNewWifi "cafe" "secret" rollbackOkEnv portalState).self.inCaptivePortal = true ∧
      (connectNewWifi "cafe" "secret" rollbackOkEnv portalState).self.captivePortalStart
        = portalState.self.captivePortalStart ∧
      (connectNewWifi "cafe" "secret" rollbackOkEnv portalState).self.dnsServer
        = portalState.self.dnsServer) :=
  ⟨by decide, C4_failed_swap_in_portal_stays "cafe" "secret" rollbackOkEnv portalState
    (by decide) (by decide) (by decide)⟩

/-- C5: whatever the starting state, the candidate and the outcomes of the radio attempts,
`connectNewWifi` returns in exactly one of three outcomes: candidate active (connected under
the candidate name, captive mode off, no rollback issued), old credentials restored (rollback
issued, connected under the old name and secret, captive mode off), or captive mode active;
so it never returns with the link down and captive mode off. -/
theorem C5_swap_resolves_to_one_outcome (newSSID newPass : String) (e : SwapEnv) (s : Sys) :
    ((candidateActive newSSID s (connectNewWifi newSSID newPass e s) ∧
        ¬ oldRestored s (connectNewWifi newSSID newPass e s) ∧
        ¬ captiveActive (connectNewWifi newSSID newPass e s)) ∨
      (¬ candidateActive newSSID s (connectNewWifi newSSID newPass e s) ∧
        oldRestored s (connectNewWifi newSSID newPass e s) ∧
        ¬ captiveActive (connectNewWifi newSSID newPass e s)) ∨
      (¬ candidateActive newSSID s (connectNewWifi newSSID newPass e s) ∧
        ¬ oldRestored s (connectNewWifi newSSID newPass e s) ∧
        captiveActive (connectNewWifi newSSID newPass e s))) ∧
    ¬ ((connectNewWifi newSSID newPass e s).self.inCaptivePortal = false ∧
        WiFi.isConnected (connectNewWifi newSSID newPass e s) = false) := by
  by_cases h0 : (s.hw.status == WL_CONNECTED && s.hw.staSSID == newSSID) = true
  · have h0c : s.hw.status = WL_CONNECTED ∧ s.hw.staSSID = newSSID := by simpa using h0
    cases hc : s.self.inCaptivePortal
    · refine ⟨Or.inl ?_, ?_⟩ <;>
        simp [candidateActive, oldRestored, captiveActive, connectNewWifi, h0, hc, isConnect, h0c]
    · refine ⟨Or.inr (Or.inr ?_), ?_⟩ <;>
        simp [candidateActive, oldRestored, captiveActive, connectNewWifi, h0, hc, isConnect]
  · have h1 : (s.hw.status == WL_CONNECTED && s.hw.staSSID == newSSID) = false := by
      simpa using h0
    by_cases hf : e.first.result = some WL_CONNECTED
    · cases hc : s.self.inCaptivePortal <;> refine ⟨Or.inl ?_, ?_⟩ <;>
        simp [candidateActive, oldRestored, captiveActive, connectNewWifi, h1, hc, isConnect, hf,
          delay, stopCaptivePortal]
    · cases hc : s.self.inCaptivePortal
      · by_cases h2 : e.second.result = some WL_CONNECTED
        · refine ⟨Or.inr (Or.inl ?_), ?_⟩ <;>
            simp [candidateActive, oldRestored, captiveActive, connectNewWifi, h1, hc, isConnect,
              hf, delay, h2]
        · refine ⟨Or.inr (Or.inr ?_), ?_⟩ <;>
            simp [candidateActive, oldRestored, captiveActive, connectNewWifi, h1, hc, isConnect,
              hf, delay, h2, startCaptivePortal]
      · refine ⟨Or.inr (Or.inr ?_), ?_⟩ <;>
          simp [candidateActive, oldRestored, captiveActive, connectNewWifi, h1, hc, isConnect, hf,
            delay]

/-! ## Portal lifetime, retry spacing and the failure count -/

/-- C6: while the 32-bit clock has not wrapped (and the portal entry time stamp is not in the
future), a call of `loop` asks for exactly one restart when it starts in captive mode more than
300000 ms after portal entry, and for none otherwise: none at exactly 300000 ms, none outside
captive mode. -/
theorem C6_restart_iff_portal_older_than_five_minutes (e : LoopEnv) (s : Sys)
    (hclk : s.hw.time < U32)
    (hentry : s.self.inCaptivePortal = true → s.self.captivePortalStart ≤ s.hw.time) :
    evCount isReboot (loop e s).hw.trace =
      evCount isReboot s.hw.trace +
        (if s.self.inCaptivePortal = true ∧ 300000 < s.hw.time - s.self.captivePortalStart
          then 1 else 0) := by
  have hp : evCount isReboot (loopPortal s).hw.trace =
      evCount isReboot s.hw.trace +
        (if s.self.inCaptivePortal = true ∧ 300000 < s.hw.time - s.self.captivePortalStart
          then 1 else 0) := by
    unfold loopPortal
    simp only []
    cases hc : s.self.inCaptivePortal
    · simp
    · have hle := hentry hc
      have hsub : subMod U64 (millis (Sys.emit Event.dnsProcessNextRequest s))
          s.self.captivePortalStart = s.hw.time - s.self.captivePortalStart := by
        simp only [subMod, millis, U64, U32, emit_time] at hclk ⊢
        omega
      by_cases h5 : 300000 < s.hw.time - s.self.captivePortalStart
      · simp [hsub, h5, isReboot]
      · simp [hsub, h5, isReboot]
  unfold loop
  cases restartDue s
  · simp only [Bool.false_eq_true, if_false]
    rw [loopCheck_reboots, (loopSwap_frame e.swap (loopPortal s)).2.1]
    exact hp
  · simp only [if_true]
    exact hp

/-- C6 at `portalState`: the portal is 350000 ms old, one restart is asked for. -/
theorem C6_restart_iff_portal_older_than_five_minutes_witness :
    (portalState.hw.time < U32 ∧
      (portalState.self.inCaptivePortal = true →
        portalState.self.captivePortalStart ≤ portalState.hw.time)) ∧
    evCount isReboot (loop noNetworkEnv portalState).hw.trace =
      evCount isReboot portalState.hw.trace +
        (if portalState.self.inCaptivePortal = true ∧
            300000 < portalState.hw.time - portalState.self.captivePortalStart
          then 1 else 0) :=
  ⟨by decide, C6_restart_iff_portal_older_than_five_minutes noNetworkEnv portalState
    (by decide) (by decide)⟩

/-- C7 as stated fails when the callback fires again while an attempt waits. The run
`interruptedAttempts` starts with the disconnect callback at `freshDown` (5000 ms) and is two
calls of `loop`; the failure count stays at most 10 (it ends at 2). The first call makes its
attempt from 5000 ms to 65000 ms, and the callback fires during the wait, after line 251 has
lowered the flag; the second call, at 65000 ms, finds the flag raised and starts the second
attempt at once, 0 ms after the end of the first. -/
theorem C7_callback_during_attempt_breaks_spacing :
    freshDown.hw.trace = [] ∧
      (∀ k, k ≤ interruptedAttempts.length →
        (exec (interruptedAttempts.take k) (onDisconnect freshDown)).self.reconnectRetries
          ≤ maxConnectionRetries) ∧
      (exec interruptedAttempts (onDisconnect freshDown)).self.reconnectRetries = 2 ∧
      (exec interruptedAttempts (onDisconnect freshDown)).hw.trace.filter
          (fun x => isSavedAttempt x.2 || isAttemptEnd x.2)
        = [(125000, Event.log LogSite.savedFailed), (65000, Event.log LogSite.savedRfcName),
            (65000, Event.log LogSite.savedFailed), (5000, Event.log LogSite.savedRfcName)] ∧
      ¬ spaced (exec interruptedAttempts (onDisconnect freshDown)).hw.trace := by
  refine ⟨by decide, by decide, by decide, by decide, ?_⟩
  rw [spaced_iff_spacedCheck]
  decide

/-- C7, amended: in a run that starts with the disconnect callback and then consists of calls
of `loop` (with time passing in between) during which the callback does not fire again, every
saved-credential attempt starts at least 30000 ms of true time after the end of the attempt
before it. The trace is observed from the callback on. The bound on the failure count is not
needed. -/
theorem C7_attempts_one_interval_apart (s0 : Sys) (run : List Step)
    (h0 : s0.hw.trace = [])
    (hq : ∀ st ∈ run, st.quietTick = true) :
    spaced (exec run (onDisconnect s0)).hw.trace := by
  refine (exec_retryInv run (onDisconnect s0) hq ?_).1
  unfold retryInv
  simp [h0, isSavedAttempt, isAttemptEnd, spaced, lastAttemptEnd]

/-- C7 amended, at the run `twoAttempts` from `freshDown`. -/
theorem C7_attempts_one_interval_apart_witness :
    (freshDown.hw.trace = [] ∧ ∀ st ∈ twoAttempts, st.quietTick = true) ∧
    spaced (exec twoAttempts (onDisconnect freshDown)).hw.trace :=
  ⟨by decide, C7_attempts_one_interval_apart freshDown twoAttempts (by decide) (by decide)⟩

/-- C8 fails on the code: after the run `lateLinkRun` from `freshUp` it is 195000 ms, the
failure count is 1 and the link has been up since 194999 ms only (it was down from 105000 ms
on), yet the next call of `loop` sets the failure count back to 0. -/
theorem C8_reset_after_one_millisecond_of_link :
    (exec lateLinkRun freshUp).hw.time = 195000 ∧
      (exec lateLinkRun freshUp).hw.upSince = some 194999 ∧
      (exec lateLinkRun freshUp).self.reconnectRetries = 1 ∧
      (loop noNetworkEnv (exec lateLinkRun freshUp)).self.reconnectRetries = 0 ∧
      resetsAt noNetworkEnv (exec lateLinkRun freshUp) = true ∧
      sustained (exec lateLinkRun freshUp) = false := by
  decide

/-- C9 as stated fails when a swap is pending: `pendingSwapState` is outside captive mode with
one failure, the link is connected and the retry interval has elapsed, yet the call of `loop`
issues two connect commands and leaves the failure count at 1 (the swap and its rollback fail
and the portal opens). -/
theorem C9_fails_with_pending_swap :
    pendingSwapState.self.inCaptivePortal = false ∧
      0 < pendingSwapState.self.reconnectRetries ∧
      WiFi.isConnected pendingSwapState = true ∧
      subMod U32 (millis pendingSwapState) pendingSwapState.self.reconnectLastRetry
        ≥ connectionRetryInterval ∧
      (loop swapFailsEnv pendingSwapState).self.reconnectRetries = 1 ∧
      connectLog pendingSwapState.hw.trace = [] ∧
      connectLog (loop swapFailsEnv pendingSwapState).hw.trace
        = [Event.beginWith "home" "pw", Event.beginWith "cafe" "secret"] := by
  decide

/-- C9, amended: outside captive mode, with no pending swap and a nonzero failure count, a call
of `loop` at which the link is connected and at least 30000 ms have elapsed on the 32-bit
clock since the retry timer was set puts the failure count to 0, and issues no connect
command, no saved-credential attempt and no teardown. -/
theorem C9_sustained_link_clears_failures (e : LoopEnv) (s : Sys)
    (hcap : s.self.inCaptivePortal = false) (hsw : s.self.reconnect = false)
    (hret : 0 < s.self.reconnectRetries)
    (hlink : WiFi.isConnected s = true)
    (hdue : subMod U32 (millis s) s.self.reconnectLastRetry ≥ connectionRetryInterval) :
    (loop e s).self.reconnectRetries = 0 ∧
      connectLog (loop e s).hw.trace = connectLog s.hw.trace ∧
      evCount isSavedAttempt (loop e s).hw.trace = evCount isSavedAttempt s.hw.trace ∧
      evCount isTeardown (loop e s).hw.trace = evCount isTeardown s.hw.trace := by
  simp only [isConnected_eq, decide_eq_true_eq] at hlink
  have hne : s.self.reconnectRetries ≠ 0 := by omega
  simp [loop, restartDue, loopPortal, loopSwap, loopCheck, checkDue, hcap, hsw, hlink, hdue, hne,
    millis, isConnect, isSavedAttempt, isTeardown]
  simp [millis] at hdue
  simp [hdue, isConnect, isSavedAttempt, isTeardown]

/-- C9 amended, at `homeState` (2 failures, connected, timer 40 s old). -/
theorem C9_sustained_link_clears_failures_witness :
    (homeState.self.inCaptivePortal = false ∧ homeState.self.reconnect = false ∧
      0 < homeState.self.reconnectRetries ∧ WiFi.isConnected homeState = true ∧
      subMod U32 (millis homeState) homeState.self.reconnectLastRetry ≥ connectionRetryInterval) ∧
    ((loop noNetworkEnv homeState).self.reconnectRetries = 0 ∧
      connectLog (loop noNetworkEnv homeState).hw.trace = connectLog homeState.hw.trace ∧
      evCount isSavedAttempt (loop noNetworkEnv homeState).hw.trace
        = evCount isSavedAttempt homeState.hw.trace ∧
      evCount isTeardown (loop noNetworkEnv homeState).hw.trace
        = evCount isTeardown homeState.hw.trace) :=
  ⟨by decide, C9_sustained_link_clears_failures noNetworkEnv homeState (by decide) (by decide)
    (by decide) (by decide) (by decide)⟩

/-- C10: when the link is connected and the radio is configured under the candidate name,
`connectNewWifi` only re-applies the host name: no teardown, no connect command, and the
supervisor (captive flag, portal time stamp, failure counter included) and the radio state are
unchanged, whatever the candidate secret is. -/
theorem C10_same_name_is_no_radio_action (newSSID newPass : String) (e : SwapEnv) (s : Sys)
    (hconn : WiFi.status s = WL_CONNECTED) (hname : WiFi.SSID s = newSSID) :
    connectNewWifi newSSID newPass e s = s.emit (Event.setHostname s.self.rfcName) ∧
      evCount isTeardown (connectNewWifi newSSID newPass e s).hw.trace
        = evCount isTeardown s.hw.trace ∧
      connectLog (connectNewWifi newSSID newPass e s).hw.trace = connectLog s.hw.trace ∧
      (connectNewWifi newSSID newPass e s).self.inCaptivePortal = s.self.inCaptivePortal ∧
      (connectNewWifi newSSID newPass e s).self.captivePortalStart = s.self.captivePortalStart ∧
      (connectNewWifi newSSID newPass e s).self.reconnectRetries = s.self.reconnectRetries := by
  simp only [status_eq, SSID_eq] at hconn hname
  have h : connectNewWifi newSSID newPass e s = s.emit (Event.setHostname s.self.rfcName) := by
    simp [connectNewWifi, hconn, hname]
  rw [h]
  simp [isTeardown, isConnect]

/-- C10 at `homeState` with candidate name "home" and another secret. -/
theorem C10_same_name_is_no_radio_action_witness :
    (WiFi.status homeState = WL_CONNECTED ∧ WiFi.SSID homeState = "home") ∧
    (connectNewWifi "home" "other" rollbackOkEnv homeState
        = homeState.emit (Event.setHostname homeState.self.rfcName) ∧
      evCount isTeardown (connectNewWifi "home" "other" rollbackOkEnv homeState).hw.trace
        = evCount isTeardown homeState.hw.trace ∧
      connectLog (connectNewWifi "home" "other" rollbackOkEnv homeState).hw.trace
        = connectLog homeState.hw.trace ∧
      (connectNewWifi "home" "other" rollbackOkEnv homeState).self.inCaptivePortal
        = homeState.self.inCaptivePortal ∧
      (connectNewWifi "home" "other" rollbackOkEnv homeState).self.captivePortalStart
        = homeState.self.captivePortalStart ∧
      (connectNewWifi "home" "other" rollbackOkEnv homeState).self.reconnectRetries
        = homeState.self.reconnectRetries) :=
  ⟨by decide, C10_same_name_is_no_radio_action "home" "other" rollbackOkEnv homeState
    (by decide) (by decide)⟩

/-! ## Start-up, the wait and the host name -/

/-- C11: from a state outside captive mode (as the supervisor is constructed), `begin` ends in
captive mode exactly when its call of `connectSavedWifi`, which waits with the 60000 ms
timeout, does not report connected; when it reports connected, `begin` ends with the link
connected and captive mode off; and in both cases `begin` makes exactly one saved-credential
attempt. -/
theorem C11_begin_opens_portal_iff_attempt_fails (hostName : String) (chipId : Nat) (polls : List Yield) (s : Sys)
    (hinit : s.self.inCaptivePortal = false) :
    ((begin hostName chipId polls s).self.inCaptivePortal = true ↔
        (connectSavedWifi polls (beginSetup hostName chipId s)).1 = false) ∧
      ((connectSavedWifi polls (beginSetup hostName chipId s)).1 = true →
        WiFi.isConnected (begin hostName chipId polls s) = true ∧
        (begin hostName chipId polls s).self.inCaptivePortal = false) ∧
      evCount isSavedAttempt (begin hostName chipId polls s).hw.trace
        = evCount isSavedAttempt s.hw.trace + 1 := by
  have hset : (beginSetup hostName chipId s).self.inCaptivePortal = false := hinit
  have htr : evCount isSavedAttempt (beginSetup hostName chipId s).hw.trace
      = evCount isSavedAttempt s.hw.trace := by
    rw [beginSetup_count]
    rfl
  unfold begin
  simp only []
  generalize beginSetup hostName chipId s = b at hset htr ⊢
  cases hr : (connectSavedWifi polls b).1
  · simp only [Bool.not_false, if_true]
    refine ⟨?_, ?_, ?_⟩
    · simp [startCaptivePortal]
    · simp
    · simp [startCaptivePortal, connectSavedWifi_attempts, isSavedAttempt, htr]
  · have hc := connectSavedWifi_true polls _ hr
    simp only [Bool.not_true, if_false]
    refine ⟨?_, ?_, ?_⟩
    · simp [hset]
    · simp [hset, hc]
    · simp [connectSavedWifi_attempts, htr]

/-- C11 at `stationDown`, with the link coming up 3 s into the wait. -/
theorem C11_begin_opens_portal_iff_attempt_fails_witness :
    stationDown.self.inCaptivePortal = false ∧
    (((begin "clock" 11256099 connectPolls stationDown).self.inCaptivePortal = true ↔
        (connectSavedWifi connectPolls (beginSetup "clock" 11256099 stationDown)).1 = false) ∧
      ((connectSavedWifi connectPolls (beginSetup "clock" 11256099 stationDown)).1 = true →
        WiFi.isConnected (begin "clock" 11256099 connectPolls stationDown) = true ∧
        (begin "clock" 11256099 connectPolls stationDown).self.inCaptivePortal = false) ∧
      evCount isSavedAttempt (begin "clock" 11256099 connectPolls stationDown).hw.trace
        = evCount isSavedAttempt stationDown.hw.trace + 1) :=
  ⟨by decide, C11_begin_opens_portal_iff_attempt_fails "clock" 11256099 connectPolls stationDown
    (by decide)⟩

/-- C12 as stated fails: in station mode the radio reports "no matching network"
(`WL_NO_SSID_AVAIL`) 1 s into the wait, yet `waitForConnectResult` goes on waiting and returns
the timeout result 60 s after it started. -/
theorem C12_no_match_does_not_stop_the_wait :
    wifi_get_opmode stationDown % 2 = 1 ∧
      WiFi.status (yields (noMatchPolls.take 1) stationDown) = WL_NO_SSID_AVAIL ∧
      (yields (noMatchPolls.take 1) stationDown).hw.time = stationDown.hw.time + 1000 ∧
      (waitForConnectResult 60000 noMatchPolls stationDown).1 = -1 ∧
      (waitForConnectResult 60000 noMatchPolls stationDown).2.hw.time
        = stationDown.hw.time + 60000 := by
  decide

/-- C12, amended: in station mode, when the timer has not expired before the yield `y`,
`waitForConnectResult` stops at `y` and returns its status if that is the first status other
than `WL_DISCONNECTED` and `WL_NO_SSID_AVAIL`, without using the yields after it; and it
returns the timeout result `-1` only if the status after `y` is one of these two. -/
theorem C12_wait_stops_at_first_definitive_status (T : Nat) (pre : List Yield) (y : Yield)
    (post : List Yield) (s : Sys)
    (hsta : wifi_get_opmode s % 2 = 1) (htime : elapsed pre < T) :
    ((∀ p ∈ pre, definitive p.status = false) → definitive y.status = true →
        waitForConnectResult T (pre ++ y :: post) s
          = (y.status.code, yield y (yields pre s))) ∧
      ((waitForConnectResult T (pre ++ y :: post) s).1 = -1 → definitive y.status = false) := by
  have hodd : ¬ wifi_get_opmode s % 2 = 0 := by omega
  unfold waitForConnectResult
  simp only [hodd, if_false]
  refine ⟨?_, ?_⟩
  · intro hpre hy
    exact waitLoop_stops T s.hw.time pre y post s le_rfl hpre hy (by simpa using htime)
  · intro hres
    exact waitLoop_timeout T s.hw.time _ s le_rfl hres pre y post rfl (by simpa using htime)

/-- C12 amended, at `stationDown`: no matching network after 1 s, password rejected 2 s later,
and a later yield that is never reached. -/
theorem C12_wait_stops_at_first_definitive_status_witness :
    (wifi_get_opmode stationDown % 2 = 1 ∧ elapsed (noMatchPolls.take 1) < 60000) ∧
    (((∀ p ∈ noMatchPolls.take 1, definitive p.status = false) →
        definitive rejectedPoll.status = true →
        waitForConnectResult 60000 (noMatchPolls.take 1 ++ rejectedPoll :: connectPolls)
            stationDown
          = (rejectedPoll.status.code, yield rejectedPoll (yields (noMatchPolls.take 1)
              stationDown))) ∧
      ((waitForConnectResult 60000 (noMatchPolls.take 1 ++ rejectedPoll :: connectPolls)
          stationDown).1 = -1 → definitive rejectedPoll.status = false)) :=
  ⟨by decide, C12_wait_stops_at_first_definitive_status 60000 (noMatchPolls.take 1) rejectedPoll
    connectPolls stationDown (by decide) (by decide)⟩

/-- C13 fails on the code: for the name "a-b" the function returns "a-", which ends with a
hyphen (the last kept character is cut off, see `getRFC952Hostname_eq`); for the example of
the specification, "My Device!!", it returns "MyDevic". -/
theorem C13_output_can_end_with_hyphen :
    getRFC952Hostname "a-b" = "a-" ∧ getRFC952Hostname "My Device!!" = "MyDevic" := by
  decide

/-- C14: for every name, the output of `getRFC952Hostname` has at most 24 characters and each
of them is an ASCII letter, a digit or a hyphen. -/
theorem C14_output_bounded_and_clean (name : String) :
    (getRFC952Hostname name).length ≤ 24 ∧
      ∀ c ∈ (getRFC952Hostname name).data, c.isAlpha = true ∨ c.isDigit = true ∨ c = '-' := by
  have hlen := collect_length 24 name.data [] (by decide)
  have hmem := collect_mem (fun c => c.isAlpha = true ∨ c.isDigit = true ∨ c = '-') 24
    name.data [] (by simp) (by
      intro c _ hc
      simp only [accepted, isalnum, Char.isAlphanum, Bool.or_eq_true, decide_eq_true_eq] at hc
      tauto)
  unfold getRFC952Hostname
  rw [hostnameChars_eq]
  generalize stripIndex _ _ = i
  refine ⟨?_, ?_⟩
  · simp only [String.length]
    rw [List.length_take]
    exact le_trans (min_le_right _ _) hlen
  · intro c hc
    exact hmem c (List.mem_of_mem_take hc)

/-- C15: for every name in which every accepted character is a hyphen, `getRFC952Hostname`
returns the empty string. -/
theorem C15_only_hyphens_gives_empty (name : String)
    (h : ∀ c ∈ name.data, accepted c = true → c = '-') :
    getRFC952Hostname name = "" := by
  have hlen := collect_length 24 name.data [] (by decide)
  have hall := collect_mem (fun c => c = '-') 24 name.data [] (by simp) h
  unfold getRFC952Hostname
  rw [hostnameChars_eq]
  generalize collect 24 name.data [] = acc at hlen hall
  cases hacc : acc with
  | nil => simp
  | cons c rest =>
    have hpos : 0 < acc.length := by simp [hacc]
    have hidx : (acc.length + (SIZE_W - 1)) % SIZE_W = acc.length - 1 := by
      unfold SIZE_W
      omega
    rw [← hacc, hidx, stripIndex_hyphens acc hall (acc.length - 1) (by omega)]
    rfl

/-- C15 at the name "-!-?-", whose accepted characters are three hyphens. -/
theorem C15_only_hyphens_gives_empty_witness :
    (∀ c ∈ "-!-?-".data, accepted c = true → c = '-') ∧ getRFC952Hostname "-!-?-" = "" :=
  ⟨by decide, C15_only_hyphens_gives_empty "-!-?-" (by decide)⟩

/-! ## Clock wraparound, the restart and the reachable states -/

/-- C16 fails on the code for the portal lifetime test: the portal was entered at
4294966296 ms, 1000 ms before the 32-bit clock wraps, and `loop` runs 1500 ms later, at
clock value 500. The true elapsed time mod 2^32 is 1500 ms, but the 64-bit difference the
test takes is 18446744069414585820, and a restart is asked for. (The retry interval test is
taken in 32 bits and is right, see `retryTest_wrap_safe`.) -/
theorem C16_portal_test_wrong_after_clock_wrap :
    wrappedPortalState.self.captivePortalStart = 4294966296 % U32 ∧
      millis wrappedPortalState = 500 ∧
      elapsed32 4294966296 wrappedPortalState.hw.time = 1500 ∧
      subMod U64 (millis wrappedPortalState) wrappedPortalState.self.captivePortalStart
        = 18446744069414585820 ∧
      evCount isReboot wrappedPortalState.hw.trace = 0 ∧
      evCount isReboot (loop noNetworkEnv wrappedPortalState).hw.trace = 1 := by
  decide

/-- C17: in captive mode, when the portal lifetime test of `loop` holds (the portal is older
than 300000 ms as line 233 measures it, see `restartDue_of_elapsed`), the call of `loop` pumps
the DNS responder, restarts the device exactly once and does nothing else, whatever the
environment offers: the two events are all that is added to the trace, the clock does not
advance, no connect command is issued, and the supervisor is unchanged, so that a pending
credential swap is not applied (the request is still as it was) and captive mode is not
exited. -/
theorem C17_restart_ends_the_tick (e : LoopEnv) (s : Sys)
    (hcap : s.self.inCaptivePortal = true)
    (hold : 5 * 60 * 1000 < subMod U64 (millis s) s.self.captivePortalStart) :
    loop e s = operations.reboot (s.emit Event.dnsProcessNextRequest) ∧
      (loop e s).hw.trace
        = (s.hw.time, Event.reboot) :: (s.hw.time, Event.dnsProcessNextRequest) :: s.hw.trace ∧
      evCount isReboot (loop e s).hw.trace = evCount isReboot s.hw.trace + 1 ∧
      (loop e s).hw.time = s.hw.time ∧
      connectLog (loop e s).hw.trace = connectLog s.hw.trace ∧
      (loop e s).self = s.self ∧
      (loop e s).self.reconnect = s.self.reconnect ∧
      (loop e s).self.inCaptivePortal = true := by
  have hold2 : 5 * 60 * 1000 < subMod U64 (millis (s.emit Event.dnsProcessNextRequest))
      s.self.captivePortalStart := hold
  have h : loop e s = operations.reboot (s.emit Event.dnsProcessNextRequest) := by
    simp [loop, restartDue, loopPortal, hcap, hold, hold2]
  rw [h]
  simp [operations.reboot, isReboot, isConnect, hcap]

/-- C17 at `stalePortalSwapState` (portal 350000 ms old, swap to "cafe" pending) with an
environment in which the candidate would connect. -/
theorem C17_restart_ends_the_tick_witness :
    (stalePortalSwapState.self.inCaptivePortal = true ∧
      5 * 60 * 1000 < subMod U64 (millis stalePortalSwapState)
        stalePortalSwapState.self.captivePortalStart) ∧
    (loop swapOkEnv stalePortalSwapState
        = operations.reboot (stalePortalSwapState.emit Event.dnsProcessNextRequest) ∧
      (loop swapOkEnv stalePortalSwapState).hw.trace
        = (stalePortalSwapState.hw.time, Event.reboot) ::
          (stalePortalSwapState.hw.time, Event.dnsProcessNextRequest) ::
          stalePortalSwapState.hw.trace ∧
      evCount isReboot (loop swapOkEnv stalePortalSwapState).hw.trace
        = evCount isReboot stalePortalSwapState.hw.trace + 1 ∧
      (loop swapOkEnv stalePortalSwapState).hw.time = stalePortalSwapState.hw.time ∧
      connectLog (loop swapOkEnv stalePortalSwapState).hw.trace
        = connectLog stalePortalSwapState.hw.trace ∧
      (loop swapOkEnv stalePortalSwapState).self = stalePortalSwapState.self ∧
      (loop swapOkEnv stalePortalSwapState).self.reconnect
        = stalePortalSwapState.self.reconnect ∧
      (loop swapOkEnv stalePortalSwapState).self.inCaptivePortal = true) :=
  ⟨by decide, C17_restart_ends_the_tick swapOkEnv stalePortalSwapState (by decide) (by decide)⟩

/-- C18: in every state reached from a supervisor as constructed by any sequence of `begin`,
`loop`, `forget`, `setNewWifi` and callback steps (and time passing), the failure count is at
most 11; once it is above 10 no step raises it; so the 8-bit counter never wraps. -/
theorem C18_failure_count_at_most_eleven (s0 : Sys) (run : List Step) (st : Step)
    (h0 : initial s0) :
    (exec run s0).self.reconnectRetries ≤ maxConnectionRetries + 1 ∧
      (maxConnectionRetries < (exec run s0).self.reconnectRetries →
        (st.apply (exec run s0)).self.reconnectRetries
          ≤ (exec run s0).self.reconnectRetries) ∧
      (exec run s0).self.reconnectRetries < 256 := by
  have h : (exec run s0).self.reconnectRetries ≤ maxConnectionRetries + 1 :=
    exec_retries run s0 (by rw [h0]; decide)
  refine ⟨h, (step_retries st _).2, ?_⟩
  unfold maxConnectionRetries at h
  omega

/-- C18 at the run `bootAndRetries` from `powerOn`, which ends with the count at 11 (see
`bootAndRetries_sample`), followed by one more call of `loop`. -/
theorem C18_failure_count_at_most_eleven_witness :
    initial powerOn ∧
    ((exec bootAndRetries powerOn).self.reconnectRetries ≤ maxConnectionRetries + 1 ∧
      (maxConnectionRetries < (exec bootAndRetries powerOn).self.reconnectRetries →
        ((Step.tick noNetworkEnv).apply (exec bootAndRetries powerOn)).self.reconnectRetries
          ≤ (exec bootAndRetries powerOn).self.reconnectRetries) ∧
      (exec bootAndRetries powerOn).self.reconnectRetries < 256) :=
  ⟨rfl, C18_failure_count_at_most_eleven powerOn bootAndRetries (Step.tick noNetworkEnv) rfl⟩

/-- C19 fails on the code: the name "abc" comes back as "ab", and "ab-" as "a", where the
claim gives "abc" and "ab": besides the hyphens at the end, the last character that is left
is removed as well (see `getRFC952Hostname_eq`). -/
theorem C19_last_character_is_dropped :
    getRFC952Hostname "abc" = "ab" ∧ specHostname "abc" = "abc" ∧
      getRFC952Hostname "ab-" = "a" ∧ specHostname "ab-" = "ab" := by
  decide

/-- C20: in every state reached from a supervisor as constructed by any sequence of `begin`,
`loop`, `forget`, `setNewWifi` and callback steps (and time passing), captive mode implies
that the DNS responder pointer refers to a live object; and a call of `loop` from such a state
that pumps the DNS responder finds the pointer live. -/
theorem C20_portal_has_live_dns_responder (s0 : Sys) (run : List Step) (e : LoopEnv)
    (h0 : initial s0) :
    ((exec run s0).self.inCaptivePortal = true →
        (exec run s0).self.dnsServer = DnsPtr.live) ∧
      (evCount isPump (loop e (exec run s0)).hw.trace ≠ evCount isPump (exec run s0).hw.trace →
        (exec run s0).self.dnsServer = DnsPtr.live) := by
  have h : dnsLive (exec run s0) := exec_dnsLive run s0 (by
    intro hc
    rw [h0] at hc
    exact absurd hc (by decide))
  refine ⟨h, fun hp => ?_⟩
  by_cases hc : (exec run s0).self.inCaptivePortal = true
  · exact h hc
  · exact absurd (loop_pumps_only_in_portal e _ (by simpa using hc)) hp

/-- C20 at the run `bootAndRetries` from `powerOn`, which ends in captive mode (see
`bootAndRetries_sample`). -/
theorem C20_portal_has_live_dns_responder_witness :
    initial powerOn ∧
    (((exec bootAndRetries powerOn).self.inCaptivePortal = true →
        (exec bootAndRetries powerOn).self.dnsServer = DnsPtr.live) ∧
      (evCount isPump (loop noNetworkEnv (exec bootAndRetries powerOn)).hw.trace
          ≠ evCount isPump (exec bootAndRetries powerOn).hw.trace →
        (exec bootAndRetries powerOn).self.dnsServer = DnsPtr.live)) :=
  ⟨rfl, C20_portal_has_live_dns_responder powerOn bootAndRetries noNetworkEnv rfl⟩

end Esp
